import Mathlib

/-! Countdown timer (`cronometro/cronometro.cpp`)

A shallow embedding of the Arduino sketch: the global variables become one
record, every function of the sketch becomes a function on that record, and
the collaborators the sketch talks to (the EEPROM byte store, the buzzer pin,
the millisecond clock) become explicit data.

Integer model.  The sketch is written for the AVR boards (`EEPROM.h`, digital
pins 2..13), where `int` is 16 bits wide and `unsigned long` is 32 bits wide.
The quantities derived from `millis()` (`currentMillis`, `delta`,
`elapsedMillisSinceLastDecrement`, `lastTickCheck`) and the conversion of the
16 bit `word` read from the store are reduced with `wrapInt`, because those
are the places where a value can leave the `int` range.  `remainingSeconds`
is kept as a plain integer: what the running sketch writes to it is the
result of a `constrain`, a preset in `[0, 1800]`, or one less than a value in
`[1, 1800]` (the invariant `Inv` below).  The decrement in `tick` is
therefore the `int` decrement on every state whose `remainingSeconds` is an
`int` above the minimum -32768.

The character display is not modelled (it never feeds back into the
program), except that `printMenu` keeps its calls to `readMemorySeconds`,
which fill the preset cache.
-/

namespace Cronometro

/-! ## Arduino core -/

/-- The Arduino type `byte`. -/
abbrev Byte := Fin 256

/-- Reduction of an integer to the 16 bit two's-complement `int`. -/
def wrapInt (x : Int) : Int := (x + 32768) % 65536 - 32768

/-- The macro `constrain(amt, low, high)`:
`((amt)<(low)?(low):((amt)>(high)?(high):(amt)))`. -/
def constrain (amt low high : Int) : Int :=
  if amt < low then low else if amt > high then high else amt

/-- The function `word(h, l)`: the unsigned 16 bit value `(h << 8) | l`. -/
def word (h l : Byte) : Nat := h.val * 256 + l.val

/-- The macro `lowByte(w)`: `(uint8_t) ((w) & 0xff)`. -/
def lowByte (w : Int) : Byte := ⟨(w % 256).toNat, by omega⟩

/-- The macro `highByte(w)`: `(uint8_t) ((w) >> 8)`. -/
def highByte (w : Int) : Byte := ⟨((w / 256) % 256).toNat, by omega⟩

/-- The EEPROM byte store: its cells, its capacity `EEPROM.length()`, and the
number of `EEPROM.read` and `EEPROM.write` calls made so far. -/
structure EEPROMClass where
  cells : Nat → Byte
  length : Nat
  reads : Nat
  writes : Nat

/-- The call `EEPROM.read(address)`. -/
def EEPROMClass.read (e : EEPROMClass) (address : Nat) : Byte × EEPROMClass :=
  (e.cells address, { e with reads := e.reads + 1 })

/-- The call `EEPROM.write(address, value)`. -/
def EEPROMClass.write (e : EEPROMClass) (address : Nat) (value : Byte) : EEPROMClass :=
  { e with cells := Function.update e.cells address value, writes := e.writes + 1 }

/-! ## Constants and global variables of the sketch -/

def SHORT_BEEP_DURATION : Int := 200

def MIN_SECONDS : Int := 0
def MAX_SECONDS : Int := 60 * 30
def MINUTES_SMALL_STEP : Int := 1
def MINUTES_BIG_STEP : Int := 5
def SECONDS_SMALL_STEP : Int := 1
def SECONDS_BIG_STEP : Int := 10

def EEPROM_INIT_MARKER : Byte := 42

/-- The table `MEMORY_ADDRESSES[] = {10, 20}`. -/
def MEMORY_ADDRESSES (memoryIndex : Fin 2) : Nat :=
  if memoryIndex = 0 then 10 else 20

/-- The enumeration `States`. -/
inductive States where
  | CONFIGURING
  | TICKING
  | ALERTING
  deriving DecidableEq, Repr

/-- The enumeration `MenuOptions`. -/
inductive MenuOptions where
  | MINUTES
  | SECONDS
  deriving DecidableEq, Repr

/-- The global variables of the sketch, together with the store and the level
of the buzzer pin. -/
structure Globals where
  EEPROM : EEPROMClass
  memoryValues : Fin 2 → Int
  state : States
  currentMenuOption : MenuOptions
  lastDisplayedSeconds : Int
  remainingSeconds : Int
  elapsedMillisSinceLastDecrement : Int
  lastTickCheck : Int
  buzzer : Bool

/-- The globals as the C++ initialisers leave them at power-on, before
`setup` runs: `memoryValues = {-1, -1}`, everything else zero. -/
def powerOn (e : EEPROMClass) : Globals :=
  { EEPROM := e
    memoryValues := fun _ => -1
    state := States.CONFIGURING
    currentMenuOption := MenuOptions.MINUTES
    lastDisplayedSeconds := 0
    remainingSeconds := 0
    elapsedMillisSinceLastDecrement := 0
    lastTickCheck := 0
    buzzer := false }

/-! ## Functions of the sketch -/

/-- The function `setUpEEPROM`. -/
def setUpEEPROM (e : EEPROMClass) : EEPROMClass :=
  let (marker, e) := e.read 0
  if marker ≠ EEPROM_INIT_MARKER then
    let e := e.write 0 EEPROM_INIT_MARKER
    (List.range' 1 (e.length - 1)).foldl (fun e i => e.write i 0) e
  else e

/-- The function `beep`: buzzer high, wait, buzzer low. -/
def beep (g : Globals) : Globals :=
  { g with buzzer := false }

/-- The function `readMemorySeconds`. -/
def readMemorySeconds (memoryIndex : Fin 2) (g : Globals) : Int × Globals :=
  if g.memoryValues memoryIndex ≥ 0 then
    (g.memoryValues memoryIndex, g)
  else
    let address := MEMORY_ADDRESSES memoryIndex
    let (lowByteValue, e) := g.EEPROM.read address
    let (highByteValue, e) := e.read (address + 1)
    let value := wrapInt (word highByteValue lowByteValue)
    let value := constrain value MIN_SECONDS MAX_SECONDS
    (value, { g with EEPROM := e
                     memoryValues := Function.update g.memoryValues memoryIndex value })

/-- The function `writeMemorySeconds`. -/
def writeMemorySeconds (memoryIndex : Fin 2) (seconds : Int) (g : Globals) : Globals :=
  if g.memoryValues memoryIndex = seconds then
    beep g
  else
    let address := MEMORY_ADDRESSES memoryIndex
    let e := g.EEPROM.write address (lowByte seconds)
    let e := e.write (address + 1) (highByte seconds)
    beep { g with EEPROM := e
                  memoryValues := Function.update g.memoryValues memoryIndex seconds }

/-- The function `printMenu`, reduced to its effect on the globals: the two
calls of `readMemorySeconds`. -/
def printMenu (g : Globals) : Globals :=
  let g := (readMemorySeconds 0 g).2
  let g := (readMemorySeconds 1 g).2
  g

/-- The function `printTick`. -/
def printTick (g : Globals) : Globals :=
  if g.lastDisplayedSeconds = g.remainingSeconds then g
  else { g with lastDisplayedSeconds := g.remainingSeconds }

/-- The function `reset`. -/
def reset (g : Globals) : Globals :=
  printMenu
    { g with buzzer := false
             state := States.CONFIGURING
             remainingSeconds := MIN_SECONDS
             elapsedMillisSinceLastDecrement := 0
             lastTickCheck := 0
             currentMenuOption := MenuOptions.MINUTES
             lastDisplayedSeconds := -1 }

/-- The function `handleBtnSwitchGoClick`. -/
def handleBtnSwitchGoClick (g : Globals) : Globals :=
  match g.state with
  | States.CONFIGURING =>
    printMenu
      (match g.currentMenuOption with
       | MenuOptions.MINUTES => { g with currentMenuOption := MenuOptions.SECONDS }
       | MenuOptions.SECONDS => { g with currentMenuOption := MenuOptions.MINUTES })
  | States.TICKING => reset g
  | States.ALERTING => reset g

/-- The function `handleBtnSwitchGoLongPress`; `millis` is the value the
clock call `millis()` returns. -/
def handleBtnSwitchGoLongPress (millis : Nat) (g : Globals) : Globals :=
  match g.state with
  | States.CONFIGURING =>
    if g.remainingSeconds > 0 then
      printTick
        { g with state := States.TICKING
                 lastTickCheck := wrapInt millis
                 elapsedMillisSinceLastDecrement := 0 }
    else
      beep g
  | States.TICKING => reset g
  | States.ALERTING => reset g

/-- The function `adjustTime`. -/
def adjustTime (isIncrement isBigStep : Bool) (g : Globals) : Globals :=
  let wholeMinutes := g.remainingSeconds.tdiv 60
  let increment : Int :=
    match g.currentMenuOption with
    | MenuOptions.MINUTES =>
      let step := if isBigStep then MINUTES_BIG_STEP else MINUTES_SMALL_STEP
      if wholeMinutes < step ∧ isIncrement = false then
        -wholeMinutes * 60
      else if isIncrement = false then
        -(60 * step)
      else
        60 * step
    | MenuOptions.SECONDS =>
      let step := if isBigStep then SECONDS_BIG_STEP else SECONDS_SMALL_STEP
      let secondsModulus := g.remainingSeconds.tmod 60
      if isIncrement then
        if secondsModulus ≥ 60 - step then -secondsModulus else step
      else
        if secondsModulus = 0 then 60 - step
        else if secondsModulus ≤ step then -secondsModulus
        else -step
  { g with remainingSeconds := constrain (g.remainingSeconds + increment) MIN_SECONDS MAX_SECONDS }

/-- The function `handleBtnUpClick`. -/
def handleBtnUpClick (g : Globals) : Globals :=
  if g.state ≠ States.CONFIGURING then g
  else printMenu (adjustTime true false g)

/-- The function `handleBtnDownClick`. -/
def handleBtnDownClick (g : Globals) : Globals :=
  if g.state ≠ States.CONFIGURING then g
  else printMenu (adjustTime false false g)

/-- The function `handleBtnUpLongPress`. -/
def handleBtnUpLongPress (g : Globals) : Globals :=
  if g.state ≠ States.CONFIGURING then g
  else printMenu (adjustTime true true g)

/-- The function `handleBtnDownLongPress`. -/
def handleBtnDownLongPress (g : Globals) : Globals :=
  if g.state ≠ States.CONFIGURING then g
  else printMenu (adjustTime false true g)

/-- The common body of `handleBtnMemory1Click` (index 0) and
`handleBtnMemory2Click` (index 1). -/
def handleBtnMemoryClick (memoryIndex : Fin 2) (millis : Nat) (g : Globals) : Globals :=
  if g.state ≠ States.CONFIGURING then g
  else
    let (seconds, g) := readMemorySeconds memoryIndex g
    let g := { g with remainingSeconds := seconds }
    let g := printMenu g
    handleBtnSwitchGoLongPress millis g

/-- The function `handleBtnMemory1Click`. -/
def handleBtnMemory1Click (millis : Nat) (g : Globals) : Globals :=
  handleBtnMemoryClick 0 millis g

/-- The function `handleBtnMemory2Click`. -/
def handleBtnMemory2Click (millis : Nat) (g : Globals) : Globals :=
  handleBtnMemoryClick 1 millis g

/-- The common body of `handleBtnMemory1LongPress` (index 0) and
`handleBtnMemory2LongPress` (index 1). -/
def handleBtnMemoryLongPress (memoryIndex : Fin 2) (g : Globals) : Globals :=
  if g.state ≠ States.CONFIGURING ∨ g.remainingSeconds ≤ 0 then g
  else printMenu (writeMemorySeconds memoryIndex g.remainingSeconds g)

/-- The function `handleBtnMemory1LongPress`. -/
def handleBtnMemory1LongPress (g : Globals) : Globals :=
  handleBtnMemoryLongPress 0 g

/-- The function `handleBtnMemory2LongPress`. -/
def handleBtnMemory2LongPress (g : Globals) : Globals :=
  handleBtnMemoryLongPress 1 g

/-- The function `setup`, from the power-on globals over a given store. -/
def setup (e : EEPROMClass) : Globals :=
  let g := powerOn e
  reset { g with EEPROM := setUpEEPROM g.EEPROM }

/-- The function `tick`; `millis` is the value the clock call `millis()`
returns, an `unsigned long` that the sketch stores in an `int`. -/
def tick (millis : Nat) (g : Globals) : Globals :=
  let currentMillis := wrapInt millis
  let delta := wrapInt (currentMillis - g.lastTickCheck)
  let g := { g with elapsedMillisSinceLastDecrement :=
                      wrapInt (g.elapsedMillisSinceLastDecrement + delta) }
  let g :=
    if g.elapsedMillisSinceLastDecrement ≥ 1000 then
      let g := { g with remainingSeconds := g.remainingSeconds - 1
                        elapsedMillisSinceLastDecrement := 0 }
      let g :=
        if g.state = States.ALERTING then
          { g with buzzer := true
                   remainingSeconds := constrain g.remainingSeconds (-MAX_SECONDS) 0 }
        else g
      printTick g
    else g
  { g with lastTickCheck := currentMillis }

/-- The phase switch at the end of `loop`, after the five button objects have
been polled (their callbacks are the `handleBtn...` functions). -/
def loop (millis : Nat) (g : Globals) : Globals :=
  match g.state with
  | States.TICKING =>
    let g := tick millis g
    if g.remainingSeconds ≤ 0 then { g with state := States.ALERTING } else g
  | States.ALERTING => tick millis g
  | States.CONFIGURING => g

/-- What can happen to the running sketch: one of the ten button callbacks
attached in `setupButtons` fires, or `loop` reaches its phase switch.  The
argument is the clock value seen by that code. -/
inductive Event where
  | btnSwitchGoClick
  | btnSwitchGoLongPress (millis : Nat)
  | btnUpClick
  | btnDownClick
  | btnUpLongPress
  | btnDownLongPress
  | btnMemory1Click (millis : Nat)
  | btnMemory2Click (millis : Nat)
  | btnMemory1LongPress
  | btnMemory2LongPress
  | poll (millis : Nat)
  deriving DecidableEq, Repr

/-- Dispatch of an event to the code `setupButtons` and `loop` attach to it. -/
def handle (ev : Event) (g : Globals) : Globals :=
  match ev with
  | Event.btnSwitchGoClick => handleBtnSwitchGoClick g
  | Event.btnSwitchGoLongPress millis => handleBtnSwitchGoLongPress millis g
  | Event.btnUpClick => handleBtnUpClick g
  | Event.btnDownClick => handleBtnDownClick g
  | Event.btnUpLongPress => handleBtnUpLongPress g
  | Event.btnDownLongPress => handleBtnDownLongPress g
  | Event.btnMemory1Click millis => handleBtnMemory1Click millis g
  | Event.btnMemory2Click millis => handleBtnMemory2Click millis g
  | Event.btnMemory1LongPress => handleBtnMemory1LongPress g
  | Event.btnMemory2LongPress => handleBtnMemory2LongPress g
  | Event.poll millis => loop millis g

/-- The globals after a sequence of events, oldest first. -/
def run (g : Globals) (evs : List Event) : Globals :=
  evs.foldl (fun g ev => handle ev g) g

/-! ## Sample data for the worked examples -/

/-- A store that `setUpEEPROM` has already initialised: the marker at
address 0, every other byte 0. -/
def initialisedStore : EEPROMClass :=
  { cells := fun a => if a = 0 then 42 else 0, length := 1024, reads := 0, writes := 0 }

/-- An initialised store whose second preset holds the bytes 125 and 0. -/
def presetStore : EEPROMClass :=
  { cells := fun a => if a = 0 then 42 else if a = 20 then 125 else 0
    length := 1024, reads := 0, writes := 0 }

/-- The booted sketch with a given time on the dial and a given menu field. -/
def editing (r : Int) (m : MenuOptions) : Globals :=
  { setup initialisedStore with remainingSeconds := r, currentMenuOption := m }

/-- The step the sketch uses for the seconds field. -/
def secondsStep (isBigStep : Bool) : Int :=
  if isBigStep then SECONDS_BIG_STEP else SECONDS_SMALL_STEP

/-- The step the sketch uses for the minutes field. -/
def minutesStep (isBigStep : Bool) : Int :=
  if isBigStep then MINUTES_BIG_STEP else MINUTES_SMALL_STEP

/-- The value `tick` compares with 1000: the old accumulator plus `delta`,
both computed in `int`. -/
def tickAccumulator (millis : Nat) (g : Globals) : Int :=
  wrapInt (g.elapsedMillisSinceLastDecrement + wrapInt (wrapInt millis - g.lastTickCheck))

/-- The events `poll (start + 1000)`, `poll (start + 2000)`, ...: `k` polls,
one second apart. -/
def pollEverySecond : Nat → Nat → List Event
  | _, 0 => []
  | start, k + 1 => Event.poll (start + 1000) :: pollEverySecond (start + 1000) k

/-- Five minutes dialled after boot, the countdown started at clock value
65036 and polled at clock value 65936. -/
def runningSample : Globals :=
  run (setup initialisedStore)
    [Event.btnUpLongPress, Event.btnSwitchGoLongPress 65036, Event.poll 65936]

/-- One second dialled after boot, the countdown started at clock value 0
and polled at clock value 1000: the alarm phase at 0:00. -/
def alertingSample : Globals :=
  run (setup initialisedStore)
    [Event.btnSwitchGoClick, Event.btnUpClick, Event.btnSwitchGoLongPress 0, Event.poll 1000]

/-- The globals after `tick` has been evaluated at each clock value of a
list, oldest first. -/
def ticks (g : Globals) (ts : List Nat) : Globals :=
  ts.foldl (fun g millis => tick millis g) g

/-- The clock values of a list, read after the clock value `t`, never go
back and are each at most 31768 ms after the one before. -/
def closeTimes : Nat → List Nat → Prop
  | _, [] => True
  | t, u :: us => t ≤ u ∧ u ≤ t + 31768 ∧ closeTimes u us

/-- The clock values of a list, read after the clock value `t`, never go
back. -/
def nonDecreasingTimes : Nat → List Nat → Prop
  | _, [] => True
  | t, u :: us => t ≤ u ∧ nonDecreasingTimes u us

instance decidableCloseTimes : ∀ (t : Nat) (ts : List Nat), Decidable (closeTimes t ts)
  | _, [] => isTrue trivial
  | t, u :: us =>
    have := decidableCloseTimes u us
    inferInstanceAs (Decidable (t ≤ u ∧ u ≤ t + 31768 ∧ closeTimes u us))

instance decidableNonDecreasingTimes :
    ∀ (t : Nat) (ts : List Nat), Decidable (nonDecreasingTimes t ts)
  | _, [] => isTrue trivial
  | t, u :: us =>
    have := decidableNonDecreasingTimes u us
    inferInstanceAs (Decidable (t ≤ u ∧ nonDecreasingTimes u us))

/-- A store fresh from the factory: every byte 255. -/
def blankStore : EEPROMClass :=
  { cells := fun _ => 255, length := 1024, reads := 0, writes := 0 }

/-- Five minutes dialled after boot and the countdown started at the given
clock value. -/
def startedSample (millis : Nat) : Globals :=
  run (setup initialisedStore) [Event.btnUpLongPress, Event.btnSwitchGoLongPress millis]

/-- Every preset cache entry is -1 (not loaded) or a time in `[0, 1800]`. -/
def cacheInRange (g : Globals) : Prop :=
  ∀ i : Fin 2, -1 ≤ g.memoryValues i ∧ g.memoryValues i ≤ 1800

/-- The range of remainingSeconds that goes with each phase. -/
def timeInRange (g : Globals) : Prop :=
  match g.state with
  | States.CONFIGURING => 0 ≤ g.remainingSeconds ∧ g.remainingSeconds ≤ 1800
  | States.TICKING => 1 ≤ g.remainingSeconds ∧ g.remainingSeconds ≤ 1800
  | States.ALERTING => -1800 ≤ g.remainingSeconds ∧ g.remainingSeconds ≤ 0

/-- The invariant of the running sketch. -/
def Inv (g : Globals) : Prop := cacheInRange g ∧ timeInRange g

/-- The value `readMemorySeconds` computes for a slot from the store when
the slot's cache is empty. -/
def coldValue (e : EEPROMClass) (memoryIndex : Fin 2) : Int :=
  constrain
    (wrapInt (word (e.cells (MEMORY_ADDRESSES memoryIndex + 1))
      (e.cells (MEMORY_ADDRESSES memoryIndex))))
    MIN_SECONDS MAX_SECONDS

/-- The value the specification gives for a cold read of a slot:
`clamp(store[addr] + 256 * store[addr + 1], 0, 1800)`. -/
def specColdValue (e : EEPROMClass) (memoryIndex : Fin 2) : Int :=
  max 0 (min (((e.cells (MEMORY_ADDRESSES memoryIndex)).val : Int)
    + 256 * ((e.cells (MEMORY_ADDRESSES memoryIndex + 1)).val : Int)) 1800)

/-- Every preset cache entry is -1 or the value a cold read of its slot would
return, and the store carries the initialisation marker. -/
def StoreInv (g : Globals) : Prop :=
  (∀ i : Fin 2, g.memoryValues i = -1 ∨ g.memoryValues i = coldValue g.EEPROM i) ∧
  g.EEPROM.cells 0 = EEPROM_INIT_MARKER

/-- An initialised store whose first preset holds the bytes 0 and 200. -/
def highByteStore : EEPROMClass :=
  { cells := fun a => if a = 0 then 42 else if a = 11 then 200 else 0
    length := 1024, reads := 0, writes := 0 }

/-! ## Lemmas on the Arduino core -/

theorem constrain_mem (amt low high : Int) (h : low ≤ high) :
    low ≤ constrain amt low high ∧ constrain amt low high ≤ high := by
  unfold constrain
  split_ifs <;> omega

theorem tdiv_sixty (r : Int) (h : 0 ≤ r) : r.tdiv 60 = r / 60 :=
  Int.tdiv_eq_ediv h (by decide)

theorem tmod_sixty (r : Int) (h : 0 ≤ r) : r.tmod 60 = r % 60 :=
  Int.tmod_eq_emod h (by decide)

/-! ## The time adjustment -/

/-- C1: from a remaining time in `[0, 1800]`, `adjustTime` leaves a remaining
time in `[0, 1800]`, whichever field is selected, in either direction and
with either step. -/
theorem adjustTime_within_range (g : Globals) (isIncrement isBigStep : Bool)
    (_h0 : 0 ≤ g.remainingSeconds) (_h1 : g.remainingSeconds ≤ 1800) :
    0 ≤ (adjustTime isIncrement isBigStep g).remainingSeconds ∧
      (adjustTime isIncrement isBigStep g).remainingSeconds ≤ 1800 := by
  simp only [adjustTime]
  exact constrain_mem _ _ _ (by decide)

/-- Witness of C1: 29:50 with the minutes field selected, one minute up. -/
theorem adjustTime_within_range_witness :
    0 ≤ (adjustTime true false (editing 1790 MenuOptions.MINUTES)).remainingSeconds ∧
      (adjustTime true false (editing 1790 MenuOptions.MINUTES)).remainingSeconds ≤ 1800 :=
  adjustTime_within_range (editing 1790 MenuOptions.MINUTES) true false (by decide) (by decide)

/-- C2, as stated, fails: the dial reaches 5:59 with the seconds field
selected by three button events after boot, and the small increment then
gives 300 (5:00), not 360. -/
theorem adjustTime_seconds_up_from_359_not_360 :
    (run (setup initialisedStore)
        [Event.btnUpLongPress, Event.btnSwitchGoClick, Event.btnDownClick]).remainingSeconds = 359 ∧
    (run (setup initialisedStore)
        [Event.btnUpLongPress, Event.btnSwitchGoClick, Event.btnDownClick]).currentMenuOption
      = MenuOptions.SECONDS ∧
    (adjustTime true false (run (setup initialisedStore)
        [Event.btnUpLongPress, Event.btnSwitchGoClick, Event.btnDownClick])).remainingSeconds = 300 ∧
    (adjustTime true false (run (setup initialisedStore)
        [Event.btnUpLongPress, Event.btnSwitchGoClick, Event.btnDownClick])).remainingSeconds ≠ 360 := by
  decide

/-- C2, amended: with the seconds field selected and the small step, the
increment takes 355 to 356 and takes 359 to 300: the seconds part 59 becomes
0 and the minutes part stays 5. -/
theorem adjustTime_seconds_up_small_examples (g : Globals)
    (hm : g.currentMenuOption = MenuOptions.SECONDS) :
    (g.remainingSeconds = 355 → (adjustTime true false g).remainingSeconds = 356) ∧
    (g.remainingSeconds = 359 → (adjustTime true false g).remainingSeconds = 300) := by
  constructor <;> intro hr <;>
    simp only [adjustTime, hm, hr, constrain, MIN_SECONDS, MAX_SECONDS, SECONDS_SMALL_STEP] <;>
    decide

/-- Witness of the amended C2. -/
theorem adjustTime_seconds_up_small_examples_witness :
    (adjustTime true false (editing 355 MenuOptions.SECONDS)).remainingSeconds = 356 ∧
    (adjustTime true false (editing 359 MenuOptions.SECONDS)).remainingSeconds = 300 :=
  ⟨(adjustTime_seconds_up_small_examples (editing 355 MenuOptions.SECONDS) rfl).1 rfl,
   (adjustTime_seconds_up_small_examples (editing 359 MenuOptions.SECONDS) rfl).2 rfl⟩

/-- C3: with the seconds field selected and a remaining time `r` in
`[0, 1800]`, the decrement by `step` (1 or 10) gives `min (r + (60 - step))
1800` when `r % 60 = 0`, gives `r - r % 60` when `0 < r % 60 ≤ step`, and
gives `r - step` otherwise; from 60 with the big step it gives 110. -/
theorem adjustTime_seconds_down (g : Globals) (isBigStep : Bool)
    (hm : g.currentMenuOption = MenuOptions.SECONDS)
    (h0 : 0 ≤ g.remainingSeconds) (h1 : g.remainingSeconds ≤ 1800) :
    (secondsStep isBigStep = 1 ∨ secondsStep isBigStep = 10) ∧
    (adjustTime false isBigStep g).remainingSeconds =
      (if g.remainingSeconds % 60 = 0 then
          min (g.remainingSeconds + (60 - secondsStep isBigStep)) 1800
        else if g.remainingSeconds % 60 ≤ secondsStep isBigStep then
          g.remainingSeconds - g.remainingSeconds % 60
        else g.remainingSeconds - secondsStep isBigStep) ∧
    (g.remainingSeconds = 60 → (adjustTime false true g).remainingSeconds = 110) := by
  refine ⟨by cases isBigStep <;> decide, ?_, ?_⟩
  · simp only [adjustTime, hm, tdiv_sixty _ h0, tmod_sixty _ h0, constrain, MIN_SECONDS,
      MAX_SECONDS, secondsStep, SECONDS_BIG_STEP, SECONDS_SMALL_STEP]
    cases isBigStep <;> simp <;> split_ifs <;> omega
  · intro hr
    simp only [adjustTime, hm, hr, constrain, MIN_SECONDS, MAX_SECONDS, SECONDS_BIG_STEP]
    decide

/-- Witness of C3: 1:00 with the seconds field selected, big step down. -/
theorem adjustTime_seconds_down_witness :
    (adjustTime false true (editing 60 MenuOptions.SECONDS)).remainingSeconds = 110 :=
  (adjustTime_seconds_down (editing 60 MenuOptions.SECONDS) true rfl
    (by decide) (by decide)).2.2 rfl

/-- C4: with the minutes field selected and a remaining time `r` in
`[0, 1800]`, the decrement by `step` minutes (1 or 5) gives `r % 60` when
`r / 60 < step` and `r - 60 * step` when `r / 60 ≥ step`; from 90 with the
big step it gives 30. -/
theorem adjustTime_minutes_down (g : Globals) (isBigStep : Bool)
    (hm : g.currentMenuOption = MenuOptions.MINUTES)
    (h0 : 0 ≤ g.remainingSeconds) (h1 : g.remainingSeconds ≤ 1800) :
    (minutesStep isBigStep = 1 ∨ minutesStep isBigStep = 5) ∧
    (g.remainingSeconds / 60 < minutesStep isBigStep →
      (adjustTime false isBigStep g).remainingSeconds = g.remainingSeconds % 60 ∧
      0 ≤ (adjustTime false isBigStep g).remainingSeconds) ∧
    (g.remainingSeconds / 60 ≥ minutesStep isBigStep →
      (adjustTime false isBigStep g).remainingSeconds
        = g.remainingSeconds - 60 * minutesStep isBigStep) ∧
    (g.remainingSeconds = 90 → (adjustTime false true g).remainingSeconds = 30) := by
  refine ⟨by cases isBigStep <;> decide, ?_, ?_, ?_⟩
  · simp only [adjustTime, hm, tdiv_sixty _ h0, constrain, MIN_SECONDS, MAX_SECONDS,
      minutesStep, MINUTES_BIG_STEP, MINUTES_SMALL_STEP]
    cases isBigStep <;> simp <;> intro hlt <;> simp [hlt] <;> split_ifs <;> omega
  · simp only [adjustTime, hm, tdiv_sixty _ h0, constrain, MIN_SECONDS, MAX_SECONDS,
      minutesStep, MINUTES_BIG_STEP, MINUTES_SMALL_STEP]
    cases isBigStep <;> simp <;> intro hge <;> split_ifs <;> omega
  · intro hr
    simp only [adjustTime, hm, hr, constrain, MIN_SECONDS, MAX_SECONDS, MINUTES_BIG_STEP]
    decide

/-- Witness of C4: 1:30 with the minutes field selected, big step down. -/
theorem adjustTime_minutes_down_witness :
    (adjustTime false true (editing 90 MenuOptions.MINUTES)).remainingSeconds = 30 :=
  (adjustTime_minutes_down (editing 90 MenuOptions.MINUTES) true rfl
    (by decide) (by decide)).2.2.2 rfl

/-- C5: with the seconds field selected and a remaining time `r` in
`[0, 1800]`, the increment by `step` (1 or 10) gives `r - r % 60` when
`r % 60 ≥ 60 - step` (no carry into the minutes) and `min (r + step) 1800`
otherwise; with the big step every seconds part from 50 to 59 becomes 0. -/
theorem adjustTime_seconds_up (g : Globals) (isBigStep : Bool)
    (hm : g.currentMenuOption = MenuOptions.SECONDS)
    (h0 : 0 ≤ g.remainingSeconds) (h1 : g.remainingSeconds ≤ 1800) :
    (secondsStep isBigStep = 1 ∨ secondsStep isBigStep = 10) ∧
    (adjustTime true isBigStep g).remainingSeconds =
      (if g.remainingSeconds % 60 ≥ 60 - secondsStep isBigStep then
          g.remainingSeconds - g.remainingSeconds % 60
        else min (g.remainingSeconds + secondsStep isBigStep) 1800) ∧
    (50 ≤ g.remainingSeconds % 60 →
      (adjustTime true true g).remainingSeconds % 60 = 0 ∧
      (adjustTime true true g).remainingSeconds / 60 = g.remainingSeconds / 60) := by
  refine ⟨by cases isBigStep <;> decide, ?_, ?_⟩
  · simp only [adjustTime, hm, tdiv_sixty _ h0, tmod_sixty _ h0, constrain, MIN_SECONDS,
      MAX_SECONDS, secondsStep, SECONDS_BIG_STEP, SECONDS_SMALL_STEP]
    cases isBigStep <;> simp <;> split_ifs <;> omega
  · intro h50
    simp only [adjustTime, hm, tdiv_sixty _ h0, tmod_sixty _ h0, constrain, MIN_SECONDS,
      MAX_SECONDS, SECONDS_BIG_STEP]
    simp
    split_ifs <;> omega

/-- Witness of C5: 5:55 with the seconds field selected, big step up, gives
5:00. -/
theorem adjustTime_seconds_up_witness :
    (adjustTime true true (editing 355 MenuOptions.SECONDS)).remainingSeconds % 60 = 0 ∧
    (adjustTime true true (editing 355 MenuOptions.SECONDS)).remainingSeconds / 60
      = (editing 355 MenuOptions.SECONDS).remainingSeconds / 60 :=
  (adjustTime_seconds_up (editing 355 MenuOptions.SECONDS) true rfl
    (by decide) (by decide)).2.2 (by decide)

/-! ## The countdown -/

theorem tick_state (millis : Nat) (g : Globals) : (tick millis g).state = g.state := by
  simp only [tick, printTick]
  split_ifs <;> rfl

theorem tick_lastTickCheck (millis : Nat) (g : Globals) :
    (tick millis g).lastTickCheck = wrapInt millis := rfl

theorem tick_elapsed (millis : Nat) (g : Globals) :
    (tick millis g).elapsedMillisSinceLastDecrement =
      if tickAccumulator millis g ≥ 1000 then 0 else tickAccumulator millis g := by
  simp only [tick, printTick, tickAccumulator]
  split_ifs <;> rfl

theorem tick_remainingSeconds (millis : Nat) (g : Globals) :
    (tick millis g).remainingSeconds =
      if tickAccumulator millis g ≥ 1000 then
        (if g.state = States.ALERTING then constrain (g.remainingSeconds - 1) (-MAX_SECONDS) 0
         else g.remainingSeconds - 1)
      else g.remainingSeconds := by
  simp only [tick, printTick, tickAccumulator]
  split_ifs <;> rfl

theorem tick_memoryValues (millis : Nat) (g : Globals) :
    (tick millis g).memoryValues = g.memoryValues := by
  simp only [tick, printTick]
  split_ifs <;> rfl

/-- Starting the countdown from the configuration phase with a positive
time on the dial. -/
theorem arm_fields (millis : Nat) (g : Globals) (hs : g.state = States.CONFIGURING)
    (hr : 0 < g.remainingSeconds) :
    (handleBtnSwitchGoLongPress millis g).state = States.TICKING ∧
    (handleBtnSwitchGoLongPress millis g).remainingSeconds = g.remainingSeconds ∧
    (handleBtnSwitchGoLongPress millis g).elapsedMillisSinceLastDecrement = 0 ∧
    (handleBtnSwitchGoLongPress millis g).lastTickCheck = wrapInt millis ∧
    (handleBtnSwitchGoLongPress millis g).memoryValues = g.memoryValues := by
  simp only [handleBtnSwitchGoLongPress, hs, printTick, gt_iff_lt, hr, if_true]
  split_ifs <;> simp

/-- C6, as stated, fails: `runningSample` is reached from boot, is in phase
TICKING with accumulator 900 and was last checked at clock value 65936,
which the sketch stores as 400; the tick at clock value 98303, which the
sketch stores as 32767, has `900 + (98303 - 65936) ≥ 1000` (and
`900 + (32767 - 400) ≥ 1000` on the stored values), yet remainingSeconds
stays 300, the accumulator becomes -32269 and the last-checked time becomes
32767, not 98303: the sum does not fit the 16 bit `int`.  (The decrement
itself is an `int` operation too: one less than -32768 is 32767.) -/
theorem tick_no_decrement_when_sum_overflows :
    runningSample.state = States.TICKING ∧
    runningSample.remainingSeconds = 300 ∧
    runningSample.elapsedMillisSinceLastDecrement = 900 ∧
    runningSample.lastTickCheck = wrapInt ((65936 : Nat) : Int) ∧
    runningSample.lastTickCheck = 400 ∧
    (65936 : Nat) ≤ 98303 ∧
    runningSample.elapsedMillisSinceLastDecrement
      + (((98303 : Nat) : Int) - ((65936 : Nat) : Int)) ≥ 1000 ∧
    wrapInt ((98303 : Nat) : Int) = 32767 ∧
    runningSample.elapsedMillisSinceLastDecrement
      + (wrapInt ((98303 : Nat) : Int) - runningSample.lastTickCheck) ≥ 1000 ∧
    (tick 98303 runningSample).remainingSeconds = 300 ∧
    (tick 98303 runningSample).elapsedMillisSinceLastDecrement = -32269 ∧
    (tick 98303 runningSample).lastTickCheck = 32767 ∧
    wrapInt (-32768 - 1) = 32767 := by
  decide

/-- C6, amended: in phase TICKING, with remainingSeconds an `int` above the
minimum -32768 (so that one less is the `int` decrement), accumulator `a` in `[0, 1000)`, the last check made at clock
value `l` and a tick at clock value `n ≥ l` with `a + (n - l) ≤ 32767`: if
`a + (n - l) ≥ 1000` then remainingSeconds decreases by exactly 1 and the
accumulator becomes 0, otherwise remainingSeconds is unchanged and the
accumulator becomes `a + (n - l)`; in both cases the last-checked time
becomes `n` as the sketch stores it (`n` itself below 32768).  And from a
countdown started at clock value 0, the ticks at 0, 400, 900 and 1200
decrement remainingSeconds once, at 1200, and leave the accumulator 0. -/
theorem tick_ticking (g : Globals) (l millis : Nat)
    (hs : g.state = States.TICKING)
    (hr0 : -32768 < g.remainingSeconds) (hr1 : g.remainingSeconds ≤ 32767)
    (ha0 : 0 ≤ g.elapsedMillisSinceLastDecrement)
    (ha1 : g.elapsedMillisSinceLastDecrement < 1000)
    (hl : g.lastTickCheck = wrapInt l)
    (hln : l ≤ millis)
    (hfit : g.elapsedMillisSinceLastDecrement + ((millis : Int) - (l : Int)) ≤ 32767) :
    ((g.elapsedMillisSinceLastDecrement + ((millis : Int) - (l : Int)) ≥ 1000 →
        (tick millis g).remainingSeconds = g.remainingSeconds - 1 ∧
        (tick millis g).remainingSeconds = wrapInt (g.remainingSeconds - 1) ∧
        (tick millis g).elapsedMillisSinceLastDecrement = 0) ∧
      (g.elapsedMillisSinceLastDecrement + ((millis : Int) - (l : Int)) < 1000 →
        (tick millis g).remainingSeconds = g.remainingSeconds ∧
        (tick millis g).elapsedMillisSinceLastDecrement
          = g.elapsedMillisSinceLastDecrement + ((millis : Int) - (l : Int))) ∧
      (tick millis g).lastTickCheck = wrapInt millis ∧
      (millis < 32768 → (tick millis g).lastTickCheck = millis)) ∧
    (∀ c : Globals, c.state = States.CONFIGURING → 0 < c.remainingSeconds →
      (tick 0 (handleBtnSwitchGoLongPress 0 c)).remainingSeconds = c.remainingSeconds ∧
      (tick 400 (tick 0 (handleBtnSwitchGoLongPress 0 c))).remainingSeconds
        = c.remainingSeconds ∧
      (tick 900 (tick 400 (tick 0 (handleBtnSwitchGoLongPress 0 c)))).remainingSeconds
        = c.remainingSeconds ∧
      (tick 1200 (tick 900 (tick 400 (tick 0
        (handleBtnSwitchGoLongPress 0 c))))).remainingSeconds = c.remainingSeconds - 1 ∧
      (tick 1200 (tick 900 (tick 400 (tick 0
        (handleBtnSwitchGoLongPress 0 c))))).elapsedMillisSinceLastDecrement = 0) := by
  constructor
  · have hacc : tickAccumulator millis g
        = g.elapsedMillisSinceLastDecrement + ((millis : Int) - (l : Int)) := by
      simp only [tickAccumulator, hl, wrapInt]
      omega
    rw [tick_remainingSeconds, tick_elapsed, hacc, hs]
    refine ⟨fun h => ?_, fun h => ?_, rfl, fun hm => ?_⟩
    · have hw : wrapInt (g.remainingSeconds - 1) = g.remainingSeconds - 1 := by
        simp only [wrapInt]
        omega
      simp [h, hw]
    · have hlt : ¬ (g.elapsedMillisSinceLastDecrement
          + ((millis : Int) - (l : Int)) ≥ 1000) := by omega
      simp [hlt]
    · rw [tick_lastTickCheck]
      simp only [wrapInt]
      omega
  · intro c hc hr
    obtain ⟨a1, a2, a3, a4, -⟩ := arm_fields 0 c hc hr
    simp [tick_remainingSeconds, tick_elapsed, tick_state, tick_lastTickCheck, tickAccumulator,
      a1, a2, a3, a4, wrapInt]

/-- Witness of the amended C6: `runningSample` (accumulator 900, last checked
at clock value 65936) ticked at clock value 66136; and a countdown started
at clock value 32760 and ticked at clock value 32770, which the sketch
stores as -32766. -/
theorem tick_ticking_witness :
    ((tick 66136 runningSample).remainingSeconds = runningSample.remainingSeconds - 1 ∧
      (tick 66136 runningSample).remainingSeconds
        = wrapInt (runningSample.remainingSeconds - 1) ∧
      (tick 66136 runningSample).elapsedMillisSinceLastDecrement = 0) ∧
    ((tick 32770 (startedSample 32760)).remainingSeconds
        = (startedSample 32760).remainingSeconds ∧
      (tick 32770 (startedSample 32760)).elapsedMillisSinceLastDecrement
        = (startedSample 32760).elapsedMillisSinceLastDecrement
          + (((32770 : Nat) : Int) - ((32760 : Nat) : Int))) :=
  ⟨(tick_ticking runningSample 65936 66136 (by decide) (by decide) (by decide) (by decide)
      (by decide) (by decide) (by decide) (by decide)).1.1 (by decide),
   (tick_ticking (startedSample 32760) 32760 32770 (by decide) (by decide) (by decide)
      (by decide) (by decide) (by decide) (by decide) (by decide)).1.2.1 (by decide)⟩

theorem loop_alerting (millis : Nat) (g : Globals) (hs : g.state = States.ALERTING) :
    loop millis g = tick millis g := by
  simp only [loop, hs]

theorem run_cons (g : Globals) (ev : Event) (evs : List Event) :
    run g (ev :: evs) = run (handle ev g) evs := rfl

theorem pollEverySecond_alerting (k : Nat) :
    ∀ (start : Nat) (g : Globals), g.state = States.ALERTING →
      g.elapsedMillisSinceLastDecrement = 0 → g.lastTickCheck = wrapInt start →
      -1800 ≤ g.remainingSeconds → g.remainingSeconds ≤ 0 →
      (run g (pollEverySecond start k)).remainingSeconds
        = max (g.remainingSeconds - k) (-1800) := by
  induction k with
  | zero =>
    intro start g _ _ _ h0 _
    simp only [pollEverySecond, run, List.foldl_nil]
    omega
  | succ k ih =>
    intro start g hs ha hl h0 h1
    have hacc : tickAccumulator (start + 1000) g = 1000 := by
      simp only [tickAccumulator, ha, hl, wrapInt]
      push_cast
      omega
    have hr : (tick (start + 1000) g).remainingSeconds = max (g.remainingSeconds - 1) (-1800) := by
      rw [tick_remainingSeconds, hacc, hs]
      simp only [constrain, MAX_SECONDS]
      split_ifs <;> omega
    rw [pollEverySecond, run_cons, handle, loop_alerting _ _ hs,
      ih (start + 1000) (tick (start + 1000) g) (by rw [tick_state, hs])
        (by rw [tick_elapsed, hacc]; rfl) (tick_lastTickCheck _ _)
        (by rw [hr]; omega) (by rw [hr]; omega), hr]
    push_cast
    omega

/-- C7: in phase ALERTING with remainingSeconds `r` in `[-1800, 0]`, a tick
that decrements leaves `max (r - 1) (-1800)`; and from 0, `k` polls one
second apart leave `-k` as long as `k ≤ 1800`, exactly -1800 after 1800 of
them, and -1800 after any larger number. -/
theorem tick_alerting_clamp (g : Globals) (millis : Nat)
    (hs : g.state = States.ALERTING)
    (h0 : -1800 ≤ g.remainingSeconds) (h1 : g.remainingSeconds ≤ 0) :
    (tickAccumulator millis g ≥ 1000 →
      (tick millis g).remainingSeconds = max (g.remainingSeconds - 1) (-1800) ∧
      (tick millis g).elapsedMillisSinceLastDecrement = 0) ∧
    (tickAccumulator millis g < 1000 →
      (tick millis g).remainingSeconds = g.remainingSeconds) ∧
    (∀ (start k : Nat) (a : Globals), a.state = States.ALERTING →
      a.remainingSeconds = 0 → a.elapsedMillisSinceLastDecrement = 0 →
      a.lastTickCheck = wrapInt start →
      (k ≤ 1800 → (run a (pollEverySecond start k)).remainingSeconds = -k) ∧
      (run a (pollEverySecond start 1800)).remainingSeconds = -1800 ∧
      (1800 ≤ k → (run a (pollEverySecond start k)).remainingSeconds = -1800)) := by
  refine ⟨fun h => ?_, fun h => ?_, ?_⟩
  · rw [tick_remainingSeconds, tick_elapsed, hs]
    simp only [h, constrain, MAX_SECONDS, if_true]
    refine ⟨?_, trivial⟩
    split_ifs <;> omega
  · rw [tick_remainingSeconds]
    have hlt : ¬ (tickAccumulator millis g ≥ 1000) := by omega
    simp [hlt]
  · intro start k a has har haa hal
    have key := fun n => pollEverySecond_alerting n start a has haa hal
      (by rw [har]; decide) (by rw [har])
    refine ⟨fun hk => ?_, ?_, fun hk => ?_⟩
    · rw [key k, har]; omega
    · rw [key 1800, har]; decide
    · rw [key k, har]; omega

/-- Witness of C7: the alarm phase at 0:00, last polled at clock value 1000,
polled at clock value 2000, and then 1800 and 1801 polls one second apart. -/
theorem tick_alerting_clamp_witness :
    (tick 2000 alertingSample).remainingSeconds
      = max (alertingSample.remainingSeconds - 1) (-1800) ∧
    (run alertingSample (pollEverySecond 1000 1800)).remainingSeconds = -1800 ∧
    (run alertingSample (pollEverySecond 1000 1801)).remainingSeconds = -1800 :=
  ⟨((tick_alerting_clamp alertingSample 2000 (by decide) (by decide) (by decide)).1
      (by decide)).1,
   ((tick_alerting_clamp alertingSample 2000 (by decide) (by decide) (by decide)).2.2
      1000 1800 alertingSample (by decide) (by decide) (by decide) (by decide)).2.1,
   ((tick_alerting_clamp alertingSample 2000 (by decide) (by decide) (by decide)).2.2
      1000 1801 alertingSample (by decide) (by decide) (by decide) (by decide)).2.2
      (by decide)⟩

/-! ## The invariant of the running sketch -/

theorem readMemorySeconds_frame (i : Fin 2) (g : Globals) :
    (readMemorySeconds i g).2.state = g.state ∧
    (readMemorySeconds i g).2.remainingSeconds = g.remainingSeconds ∧
    (readMemorySeconds i g).2.currentMenuOption = g.currentMenuOption ∧
    (readMemorySeconds i g).2.elapsedMillisSinceLastDecrement
      = g.elapsedMillisSinceLastDecrement ∧
    (readMemorySeconds i g).2.lastTickCheck = g.lastTickCheck := by
  simp only [readMemorySeconds, EEPROMClass.read]
  split_ifs <;> simp

theorem readMemorySeconds_cache (i : Fin 2) (g : Globals) (h : cacheInRange g) :
    cacheInRange (readMemorySeconds i g).2 ∧
    0 ≤ (readMemorySeconds i g).1 ∧ (readMemorySeconds i g).1 ≤ 1800 := by
  simp only [readMemorySeconds, EEPROMClass.read]
  split_ifs with hc
  · exact ⟨h, hc, (h i).2⟩
  · have hv := constrain_mem
      (wrapInt (word (g.EEPROM.cells (MEMORY_ADDRESSES i + 1))
        (g.EEPROM.cells (MEMORY_ADDRESSES i))))
      MIN_SECONDS MAX_SECONDS (by decide)
    simp only [MIN_SECONDS, MAX_SECONDS] at hv ⊢
    refine ⟨fun j => ?_, hv.1, by omega⟩
    by_cases hj : j = i
    · subst hj
      simp only [Function.update_same]
      omega
    · simp only [Function.update_noteq hj]
      exact h j

theorem printMenu_frame (g : Globals) :
    (printMenu g).state = g.state ∧
    (printMenu g).remainingSeconds = g.remainingSeconds ∧
    (printMenu g).currentMenuOption = g.currentMenuOption ∧
    (printMenu g).elapsedMillisSinceLastDecrement = g.elapsedMillisSinceLastDecrement ∧
    (printMenu g).lastTickCheck = g.lastTickCheck := by
  obtain ⟨a1, a2, a3, a4, a5⟩ := readMemorySeconds_frame 0 g
  obtain ⟨b1, b2, b3, b4, b5⟩ := readMemorySeconds_frame 1 (readMemorySeconds 0 g).2
  simp only [printMenu]
  exact ⟨b1.trans a1, b2.trans a2, b3.trans a3, b4.trans a4, b5.trans a5⟩

theorem printMenu_cache (g : Globals) (h : cacheInRange g) : cacheInRange (printMenu g) :=
  (readMemorySeconds_cache 1 _ (readMemorySeconds_cache 0 g h).1).1

theorem printMenu_inv (g : Globals) (h : Inv g) : Inv (printMenu g) := by
  obtain ⟨a1, a2, -⟩ := printMenu_frame g
  refine ⟨printMenu_cache g h.1, ?_⟩
  have ht := h.2
  simp only [timeInRange, a1, a2] at ht ⊢
  exact ht

theorem reset_inv (g : Globals) (h : cacheInRange g) : Inv (reset g) := by
  apply printMenu_inv
  exact ⟨h, by simp [timeInRange, MIN_SECONDS]⟩

theorem handleBtnSwitchGoClick_inv (g : Globals) (h : Inv g) :
    Inv (handleBtnSwitchGoClick g) := by
  unfold handleBtnSwitchGoClick
  split
  · rename_i hs
    apply printMenu_inv
    have ht := h.2
    split <;> exact ⟨h.1, by simpa [timeInRange, hs] using ht⟩
  · exact reset_inv g h.1
  · exact reset_inv g h.1

theorem handleBtnSwitchGoLongPress_inv (millis : Nat) (g : Globals) (h : Inv g) :
    Inv (handleBtnSwitchGoLongPress millis g) := by
  unfold handleBtnSwitchGoLongPress
  split
  · rename_i hs
    have ht := h.2
    simp only [timeInRange, hs] at ht
    split_ifs with hr
    · refine ⟨?_, ?_⟩
      · simp only [printTick]
        split_ifs <;> exact h.1
      · simp only [printTick]
        split_ifs <;> simp only [timeInRange] <;> omega
    · exact ⟨h.1, by simpa [timeInRange, beep, hs] using ht⟩
  · exact reset_inv g h.1
  · exact reset_inv g h.1

theorem adjustTime_inv (isIncrement isBigStep : Bool) (g : Globals) (h : Inv g)
    (hs : g.state = States.CONFIGURING) : Inv (adjustTime isIncrement isBigStep g) := by
  refine ⟨h.1, ?_⟩
  simp only [adjustTime, timeInRange, hs]
  exact constrain_mem _ _ _ (by decide)

theorem handleBtnUpClick_inv (g : Globals) (h : Inv g) : Inv (handleBtnUpClick g) := by
  unfold handleBtnUpClick
  split_ifs with hs
  · exact h
  · exact printMenu_inv _ (adjustTime_inv _ _ g h (by simpa using hs))

theorem handleBtnDownClick_inv (g : Globals) (h : Inv g) : Inv (handleBtnDownClick g) := by
  unfold handleBtnDownClick
  split_ifs with hs
  · exact h
  · exact printMenu_inv _ (adjustTime_inv _ _ g h (by simpa using hs))

theorem handleBtnUpLongPress_inv (g : Globals) (h : Inv g) :
    Inv (handleBtnUpLongPress g) := by
  unfold handleBtnUpLongPress
  split_ifs with hs
  · exact h
  · exact printMenu_inv _ (adjustTime_inv _ _ g h (by simpa using hs))

theorem handleBtnDownLongPress_inv (g : Globals) (h : Inv g) :
    Inv (handleBtnDownLongPress g) := by
  unfold handleBtnDownLongPress
  split_ifs with hs
  · exact h
  · exact printMenu_inv _ (adjustTime_inv _ _ g h (by simpa using hs))

theorem handleBtnMemoryClick_configuring (i : Fin 2) (millis : Nat) (g : Globals)
    (hs : g.state = States.CONFIGURING) :
    handleBtnMemoryClick i millis g =
      handleBtnSwitchGoLongPress millis
        (printMenu { (readMemorySeconds i g).2 with
                       remainingSeconds := (readMemorySeconds i g).1 }) := by
  rw [handleBtnMemoryClick, if_neg (by simp [hs])]

theorem handleBtnMemoryClick_inv (i : Fin 2) (millis : Nat) (g : Globals) (h : Inv g) :
    Inv (handleBtnMemoryClick i millis g) := by
  by_cases hs : g.state = States.CONFIGURING
  · obtain ⟨hc, hv0, hv1⟩ := readMemorySeconds_cache i g h.1
    obtain ⟨f1, -⟩ := readMemorySeconds_frame i g
    rw [handleBtnMemoryClick_configuring i millis g hs]
    apply handleBtnSwitchGoLongPress_inv
    apply printMenu_inv
    exact ⟨hc, by simp only [timeInRange, f1, hs]; exact ⟨hv0, hv1⟩⟩
  · rw [handleBtnMemoryClick, if_pos hs]
    exact h

theorem writeMemorySeconds_frame (i : Fin 2) (seconds : Int) (g : Globals) :
    (writeMemorySeconds i seconds g).state = g.state ∧
    (writeMemorySeconds i seconds g).remainingSeconds = g.remainingSeconds ∧
    (writeMemorySeconds i seconds g).memoryValues = Function.update g.memoryValues i seconds := by
  simp only [writeMemorySeconds, beep]
  split_ifs with hc
  · refine ⟨rfl, rfl, ?_⟩
    rw [← hc, Function.update_eq_self]
  · exact ⟨rfl, rfl, rfl⟩

theorem handleBtnMemoryLongPress_inv (i : Fin 2) (g : Globals) (h : Inv g) :
    Inv (handleBtnMemoryLongPress i g) := by
  unfold handleBtnMemoryLongPress
  split_ifs with hs
  · exact h
  · have hs' : g.state = States.CONFIGURING ∧ 0 < g.remainingSeconds := by
      simpa [not_or] using hs
    obtain ⟨f1, f2, f3⟩ := writeMemorySeconds_frame i g.remainingSeconds g
    have ht := h.2
    simp only [timeInRange, hs'.1] at ht
    apply printMenu_inv
    refine ⟨fun j => ?_, by simp only [timeInRange, f1, f2, hs'.1]; exact ht⟩
    rw [f3]
    by_cases hj : j = i
    · subst hj
      simp only [Function.update_same]
      omega
    · simp only [Function.update_noteq hj]
      exact h.1 j

theorem tick_cache (millis : Nat) (g : Globals) (h : cacheInRange g) :
    cacheInRange (tick millis g) := by
  intro j
  rw [tick_memoryValues]
  exact h j

theorem loop_inv (millis : Nat) (g : Globals) (h : Inv g) : Inv (loop millis g) := by
  have ht := h.2
  have hr := tick_remainingSeconds millis g
  have hst := tick_state millis g
  have hc := tick_cache millis g h.1
  unfold loop
  split
  · rename_i hs
    simp only [timeInRange, hs] at ht
    simp only [hs, if_false, reduceCtorEq] at hr
    dsimp only
    split_ifs with hz
    · refine ⟨fun j => ?_, ?_⟩
      · show -1 ≤ (tick millis g).memoryValues j ∧ (tick millis g).memoryValues j ≤ 1800
        exact hc j
      · simp only [timeInRange]
        split_ifs at hr <;> omega
    · exact ⟨hc, by simp only [timeInRange, hst, hs]; split_ifs at hr <;> omega⟩
  · rename_i hs
    simp only [timeInRange, hs] at ht
    simp only [hs, if_true, constrain, MAX_SECONDS] at hr
    exact ⟨hc, by simp only [timeInRange, hst, hs]; split_ifs at hr <;> omega⟩
  · exact h

theorem handle_inv (ev : Event) (g : Globals) (h : Inv g) : Inv (handle ev g) := by
  cases ev with
  | btnSwitchGoClick => exact handleBtnSwitchGoClick_inv g h
  | btnSwitchGoLongPress millis => exact handleBtnSwitchGoLongPress_inv millis g h
  | btnUpClick => exact handleBtnUpClick_inv g h
  | btnDownClick => exact handleBtnDownClick_inv g h
  | btnUpLongPress => exact handleBtnUpLongPress_inv g h
  | btnDownLongPress => exact handleBtnDownLongPress_inv g h
  | btnMemory1Click millis => exact handleBtnMemoryClick_inv 0 millis g h
  | btnMemory2Click millis => exact handleBtnMemoryClick_inv 1 millis g h
  | btnMemory1LongPress => exact handleBtnMemoryLongPress_inv 0 g h
  | btnMemory2LongPress => exact handleBtnMemoryLongPress_inv 1 g h
  | poll millis => exact loop_inv millis g h

theorem setup_inv (e : EEPROMClass) : Inv (setup e) := by
  apply reset_inv
  intro j
  simp [powerOn]

theorem run_inv (evs : List Event) : ∀ g : Globals, Inv g → Inv (run g evs) := by
  induction evs with
  | nil => exact fun g h => h
  | cons ev evs ih => exact fun g h => ih (handle ev g) (handle_inv ev g h)

/-- C8: after boot over any store contents and any sequence of button events
and polls (whatever their clock values, so in particular non-decreasing
ones), remainingSeconds is at most 1800 in absolute value: it is in
`[0, 1800]` in phase CONFIGURING, in `[1, 1800]` in phase TICKING and in
`[-1800, 0]` in phase ALERTING. -/
theorem remainingSeconds_in_phase_range (e : EEPROMClass) (evs : List Event) :
    |(run (setup e) evs).remainingSeconds| ≤ 1800 ∧
    ((run (setup e) evs).state = States.CONFIGURING →
      0 ≤ (run (setup e) evs).remainingSeconds ∧ (run (setup e) evs).remainingSeconds ≤ 1800) ∧
    ((run (setup e) evs).state = States.TICKING →
      1 ≤ (run (setup e) evs).remainingSeconds ∧ (run (setup e) evs).remainingSeconds ≤ 1800) ∧
    ((run (setup e) evs).state = States.ALERTING →
      -1800 ≤ (run (setup e) evs).remainingSeconds ∧ (run (setup e) evs).remainingSeconds ≤ 0) := by
  have h := (run_inv evs (setup e) (setup_inv e)).2
  simp only [timeInRange] at h
  refine ⟨?_, fun hs => ?_, fun hs => ?_, fun hs => ?_⟩
  · rw [abs_le]
    split at h <;> omega
  · simpa [hs] using h
  · simpa [hs] using h
  · simpa [hs] using h

/-- Witness of C8: five minutes dialled, the countdown started and polled. -/
theorem remainingSeconds_in_phase_range_witness :
    1 ≤ runningSample.remainingSeconds ∧ runningSample.remainingSeconds ≤ 1800 :=
  (remainingSeconds_in_phase_range initialisedStore
    [Event.btnUpLongPress, Event.btnSwitchGoLongPress 65036, Event.poll 65936]).2.2.1
    (by decide)

/-! ## The preset store -/

/-- C9: after `writeMemorySeconds slot s` with `s ≥ 0`, `readMemorySeconds
slot` returns `s` and changes nothing (so it makes no storage access), and a
second `writeMemorySeconds slot s` leaves the store, its read and write
counts, and the cache as they are. -/
theorem writeMemorySeconds_read_back (memoryIndex : Fin 2) (seconds : Int) (g : Globals)
    (hs : 0 ≤ seconds) :
    (readMemorySeconds memoryIndex (writeMemorySeconds memoryIndex seconds g)).1 = seconds ∧
    (readMemorySeconds memoryIndex (writeMemorySeconds memoryIndex seconds g)).2
      = writeMemorySeconds memoryIndex seconds g ∧
    (readMemorySeconds memoryIndex (writeMemorySeconds memoryIndex seconds g)).2.EEPROM.reads
      = (writeMemorySeconds memoryIndex seconds g).EEPROM.reads ∧
    (writeMemorySeconds memoryIndex seconds
        (writeMemorySeconds memoryIndex seconds g)).EEPROM.writes
      = (writeMemorySeconds memoryIndex seconds g).EEPROM.writes ∧
    (writeMemorySeconds memoryIndex seconds (writeMemorySeconds memoryIndex seconds g)).EEPROM
      = (writeMemorySeconds memoryIndex seconds g).EEPROM ∧
    (writeMemorySeconds memoryIndex seconds
        (writeMemorySeconds memoryIndex seconds g)).memoryValues
      = (writeMemorySeconds memoryIndex seconds g).memoryValues := by
  have hc : (writeMemorySeconds memoryIndex seconds g).memoryValues memoryIndex = seconds := by
    rw [(writeMemorySeconds_frame memoryIndex seconds g).2.2, Function.update_same]
  have hread : readMemorySeconds memoryIndex (writeMemorySeconds memoryIndex seconds g)
      = (seconds, writeMemorySeconds memoryIndex seconds g) := by
    rw [readMemorySeconds, if_pos (by rw [hc]; exact hs), hc]
  have hwrite : writeMemorySeconds memoryIndex seconds (writeMemorySeconds memoryIndex seconds g)
      = beep (writeMemorySeconds memoryIndex seconds g) := by
    rw [writeMemorySeconds, if_pos hc]
  rw [hread, hwrite]
  exact ⟨rfl, rfl, rfl, rfl, rfl, rfl⟩

/-- Witness of C9: 125 seconds written to the first preset after boot. -/
theorem writeMemorySeconds_read_back_witness :
    (readMemorySeconds 0 (writeMemorySeconds 0 125 (setup initialisedStore))).1 = 125 ∧
    (writeMemorySeconds 0 125 (writeMemorySeconds 0 125 (setup initialisedStore))).EEPROM.writes
      = (writeMemorySeconds 0 125 (setup initialisedStore)).EEPROM.writes :=
  ⟨(writeMemorySeconds_read_back 0 125 (setup initialisedStore) (by decide)).1,
   (writeMemorySeconds_read_back 0 125 (setup initialisedStore) (by decide)).2.2.2.1⟩

/-- C10: with the slot's cache at -1, `readMemorySeconds` returns a value in
`[0, 1800]`, equal to `lo + 256 * hi` for the two stored bytes whenever that
is at most 1800, and leaves that value in the slot's cache; with the cache at
0 or more it returns the cached value and changes nothing (so it reads no
storage byte). -/
theorem readMemorySeconds_cold_or_cached (memoryIndex : Fin 2) (g : Globals) :
    (g.memoryValues memoryIndex = -1 →
      0 ≤ (readMemorySeconds memoryIndex g).1 ∧
      (readMemorySeconds memoryIndex g).1 ≤ 1800 ∧
      (((g.EEPROM.cells (MEMORY_ADDRESSES memoryIndex)).val : Int)
          + 256 * ((g.EEPROM.cells (MEMORY_ADDRESSES memoryIndex + 1)).val : Int) ≤ 1800 →
        (readMemorySeconds memoryIndex g).1
          = ((g.EEPROM.cells (MEMORY_ADDRESSES memoryIndex)).val : Int)
            + 256 * ((g.EEPROM.cells (MEMORY_ADDRESSES memoryIndex + 1)).val : Int)) ∧
      (readMemorySeconds memoryIndex g).2.memoryValues memoryIndex
        = (readMemorySeconds memoryIndex g).1) ∧
    (0 ≤ g.memoryValues memoryIndex →
      (readMemorySeconds memoryIndex g).1 = g.memoryValues memoryIndex ∧
      (readMemorySeconds memoryIndex g).2 = g ∧
      (readMemorySeconds memoryIndex g).2.EEPROM.reads = g.EEPROM.reads) := by
  constructor
  · intro hc
    have hneg : ¬ (g.memoryValues memoryIndex ≥ 0) := by rw [hc]; decide
    have hlo := (g.EEPROM.cells (MEMORY_ADDRESSES memoryIndex)).isLt
    have hhi := (g.EEPROM.cells (MEMORY_ADDRESSES memoryIndex + 1)).isLt
    simp only [readMemorySeconds, if_neg hneg, EEPROMClass.read, Function.update_same,
      constrain, wrapInt, word, MIN_SECONDS, MAX_SECONDS]
    push_cast
    refine ⟨?_, ?_, ?_, trivial⟩
    · split_ifs <;> omega
    · split_ifs <;> omega
    · intro hle
      split_ifs <;> omega
  · intro hc
    rw [readMemorySeconds, if_pos hc]
    exact ⟨rfl, rfl, rfl⟩

/-- Witness of C10: the bytes 125 and 0 stored for the second preset are
read as 125 seconds, and a second read is served from the cache. -/
theorem readMemorySeconds_cold_or_cached_witness :
    (readMemorySeconds 1 (powerOn presetStore)).1 = 125 ∧
    (readMemorySeconds 1 (readMemorySeconds 1 (powerOn presetStore)).2).2.EEPROM.reads
      = (readMemorySeconds 1 (powerOn presetStore)).2.EEPROM.reads :=
  ⟨((readMemorySeconds_cold_or_cached 1 (powerOn presetStore)).1 (by decide)).2.2.1 (by decide),
   ((readMemorySeconds_cold_or_cached 1 (readMemorySeconds 1 (powerOn presetStore)).2).2
      (by decide)).2.2⟩

/-! ## Reset and start -/

/-- C11: from every state `reset` gives phase CONFIGURING, remainingSeconds
0, accumulator 0 and menu field MINUTES (and last-checked time 0, buzzer
off); in phase TICKING or ALERTING the click and the long press of the
switch/go button give exactly the state `reset` gives. -/
theorem reset_gives_configuring_zero (g : Globals) :
    (reset g).state = States.CONFIGURING ∧
    (reset g).remainingSeconds = 0 ∧
    (reset g).elapsedMillisSinceLastDecrement = 0 ∧
    (reset g).currentMenuOption = MenuOptions.MINUTES ∧
    (reset g).lastTickCheck = 0 ∧
    (reset g).buzzer = false ∧
    (g.state = States.TICKING ∨ g.state = States.ALERTING →
      handleBtnSwitchGoClick g = reset g ∧
      ∀ millis : Nat, handleBtnSwitchGoLongPress millis g = reset g) := by
  obtain ⟨f1, f2, f3, f4, f5⟩ := printMenu_frame
    { g with buzzer := false
             state := States.CONFIGURING
             remainingSeconds := MIN_SECONDS
             elapsedMillisSinceLastDecrement := 0
             lastTickCheck := 0
             currentMenuOption := MenuOptions.MINUTES
             lastDisplayedSeconds := -1 }
  refine ⟨f1, f2, f4, f3, f5, ?_, ?_⟩
  · simp only [reset, printMenu, readMemorySeconds, EEPROMClass.read]
    split_ifs <;> rfl
  · rintro (hs | hs)
    · exact ⟨by simp only [handleBtnSwitchGoClick, hs],
        fun millis => by simp only [handleBtnSwitchGoLongPress, hs]⟩
    · exact ⟨by simp only [handleBtnSwitchGoClick, hs],
        fun millis => by simp only [handleBtnSwitchGoLongPress, hs]⟩

/-- Witness of C11: the button pressed while the countdown runs and while
the alarm sounds. -/
theorem reset_gives_configuring_zero_witness :
    handleBtnSwitchGoClick runningSample = reset runningSample ∧
    handleBtnSwitchGoLongPress 70000 alertingSample = reset alertingSample :=
  ⟨((reset_gives_configuring_zero runningSample).2.2.2.2.2.2 (Or.inl (by decide))).1,
   ((reset_gives_configuring_zero alertingSample).2.2.2.2.2.2 (Or.inr (by decide))).2 70000⟩

/-- C12, as stated, fails: with 5:00 on the dial after boot, the long press
at clock value 40000 starts the countdown and sets the last-checked time to
-25536, the clock value as the 16 bit `int` holds it, not to 40000. -/
theorem start_long_press_stores_wrapped_clock :
    (run (setup initialisedStore) [Event.btnUpLongPress]).state = States.CONFIGURING ∧
    (run (setup initialisedStore) [Event.btnUpLongPress]).remainingSeconds = 300 ∧
    (handleBtnSwitchGoLongPress 40000
        (run (setup initialisedStore) [Event.btnUpLongPress])).state = States.TICKING ∧
    (handleBtnSwitchGoLongPress 40000
        (run (setup initialisedStore) [Event.btnUpLongPress])).lastTickCheck = -25536 ∧
    (handleBtnSwitchGoLongPress 40000
        (run (setup initialisedStore) [Event.btnUpLongPress])).lastTickCheck
      ≠ ((40000 : Nat) : Int) := by
  decide

/-- C12, amended: for the long press of the switch/go button in phase
CONFIGURING, the phase becomes TICKING exactly when remainingSeconds is
positive.  At 0
the phase, remainingSeconds, menu field, accumulator, last-checked time,
preset caches and store are all unchanged; at a positive value the
accumulator becomes 0, the last-checked time becomes the clock value as the
sketch stores it (the clock value itself below 32768), and remainingSeconds
is unchanged. -/
theorem start_long_press (millis : Nat) (g : Globals)
    (hs : g.state = States.CONFIGURING) :
    ((handleBtnSwitchGoLongPress millis g).state = States.TICKING ↔ 0 < g.remainingSeconds) ∧
    (g.remainingSeconds = 0 →
      (handleBtnSwitchGoLongPress millis g).state = g.state ∧
      (handleBtnSwitchGoLongPress millis g).remainingSeconds = g.remainingSeconds ∧
      (handleBtnSwitchGoLongPress millis g).currentMenuOption = g.currentMenuOption ∧
      (handleBtnSwitchGoLongPress millis g).elapsedMillisSinceLastDecrement
        = g.elapsedMillisSinceLastDecrement ∧
      (handleBtnSwitchGoLongPress millis g).lastTickCheck = g.lastTickCheck ∧
      (handleBtnSwitchGoLongPress millis g).memoryValues = g.memoryValues ∧
      (handleBtnSwitchGoLongPress millis g).EEPROM = g.EEPROM) ∧
    (0 < g.remainingSeconds →
      (handleBtnSwitchGoLongPress millis g).elapsedMillisSinceLastDecrement = 0 ∧
      (handleBtnSwitchGoLongPress millis g).lastTickCheck = wrapInt millis ∧
      (millis < 32768 → (handleBtnSwitchGoLongPress millis g).lastTickCheck = millis) ∧
      (handleBtnSwitchGoLongPress millis g).remainingSeconds = g.remainingSeconds ∧
      (handleBtnSwitchGoLongPress millis g).currentMenuOption = g.currentMenuOption ∧
      (handleBtnSwitchGoLongPress millis g).memoryValues = g.memoryValues ∧
      (handleBtnSwitchGoLongPress millis g).EEPROM = g.EEPROM) := by
  refine ⟨?_, ?_, ?_⟩
  · constructor
    · intro ht
      by_contra hr
      simp only [handleBtnSwitchGoLongPress, hs, gt_iff_lt, if_neg hr, beep] at ht
      exact absurd ht (by decide)
    · exact fun hr => (arm_fields millis g hs hr).1
  · intro hr
    have hn : ¬ (g.remainingSeconds > 0) := by omega
    simp only [handleBtnSwitchGoLongPress, hs, if_neg hn, beep]
    exact ⟨trivial, trivial, trivial, trivial, trivial, trivial, trivial⟩
  · intro hr
    obtain ⟨-, a2, a3, a4, a5⟩ := arm_fields millis g hs hr
    refine ⟨a3, a4, ?_, a2, ?_, a5, ?_⟩
    · intro hm
      rw [a4]
      simp only [wrapInt]
      omega
    · simp only [handleBtnSwitchGoLongPress, hs, gt_iff_lt, hr, if_true, printTick]
      split_ifs <;> rfl
    · simp only [handleBtnSwitchGoLongPress, hs, gt_iff_lt, hr, if_true, printTick]
      split_ifs <;> rfl

/-- Witness of C12, amended: the long press right after boot (0:00 on the dial) and
with 5:00 on the dial. -/
theorem start_long_press_witness :
    (handleBtnSwitchGoLongPress 1234 (setup initialisedStore)).state = States.CONFIGURING ∧
    (handleBtnSwitchGoLongPress 1234 (editing 300 MenuOptions.MINUTES)).state
      = States.TICKING ∧
    (handleBtnSwitchGoLongPress 1234 (editing 300 MenuOptions.MINUTES)).lastTickCheck
      = 1234 :=
  ⟨((start_long_press 1234 (setup initialisedStore) (by decide)).2.1 (by decide)).1,
   (start_long_press 1234 (editing 300 MenuOptions.MINUTES) (by decide)).1.2 (by decide),
   ((start_long_press 1234 (editing 300 MenuOptions.MINUTES) (by decide)).2.2
      (by decide)).2.2.1 (by decide)⟩

/-- C13: with the accumulator in `[0, 1000)`, a tick whose time (as the
sketch stores it) equals the last-checked time decrements nothing and leaves
remainingSeconds, the accumulator and the phase unchanged; and from any
state, the second of two ticks at the same clock value leaves
remainingSeconds as the first tick left it. -/
theorem tick_same_time (g : Globals) (millis : Nat) :
    (0 ≤ g.elapsedMillisSinceLastDecrement → g.elapsedMillisSinceLastDecrement < 1000 →
      wrapInt millis = g.lastTickCheck →
      (tick millis g).remainingSeconds = g.remainingSeconds ∧
      (tick millis g).elapsedMillisSinceLastDecrement = g.elapsedMillisSinceLastDecrement ∧
      (tick millis g).state = g.state) ∧
    (tick millis (tick millis g)).remainingSeconds = (tick millis g).remainingSeconds := by
  constructor
  · intro h0 h1 hl
    have hacc : tickAccumulator millis g = g.elapsedMillisSinceLastDecrement := by
      simp only [tickAccumulator, ← hl, wrapInt] at *
      omega
    have hlt : ¬ (g.elapsedMillisSinceLastDecrement ≥ 1000) := by omega
    rw [tick_remainingSeconds, tick_elapsed, tick_state, hacc]
    simp only [if_neg hlt, and_self]
  · have hacc : tickAccumulator millis (tick millis g)
        = (tick millis g).elapsedMillisSinceLastDecrement := by
      have hb : (tick millis g).elapsedMillisSinceLastDecrement
          = if tickAccumulator millis g ≥ 1000 then 0 else tickAccumulator millis g :=
        tick_elapsed millis g
      have hw : tickAccumulator millis g = wrapInt (g.elapsedMillisSinceLastDecrement
          + wrapInt (wrapInt millis - g.lastTickCheck)) := rfl
      rw [tickAccumulator, tick_lastTickCheck, hb, hw]
      simp only [wrapInt]
      split_ifs <;> omega
    have hlt : ¬ ((tick millis g).elapsedMillisSinceLastDecrement ≥ 1000) := by
      rw [tick_elapsed]
      split_ifs <;> omega
    rw [tick_remainingSeconds millis (tick millis g), hacc, if_neg hlt]

/-- Witness of C13: `runningSample` (accumulator 900, last-checked time 400)
ticked again at the clock value 65936 of its last poll. -/
theorem tick_same_time_witness :
    (tick 65936 runningSample).remainingSeconds = runningSample.remainingSeconds ∧
    (tick 65936 runningSample).elapsedMillisSinceLastDecrement
      = runningSample.elapsedMillisSinceLastDecrement ∧
    (tick 65936 runningSample).state = runningSample.state :=
  (tick_same_time runningSample 65936).1 (by decide) (by decide) (by decide)

/-! ## The accumulator -/

theorem ticks_cons (g : Globals) (t : Nat) (ts : List Nat) :
    ticks g (t :: ts) = ticks (tick t g) ts := rfl

/-- One tick at most 31768 ms after the last check keeps the accumulator in
`[0, 1000)`. -/
theorem tick_elapsed_close (g : Globals) (t u : Nat)
    (ha0 : 0 ≤ g.elapsedMillisSinceLastDecrement)
    (ha1 : g.elapsedMillisSinceLastDecrement < 1000)
    (hl : g.lastTickCheck = wrapInt t) (htu : t ≤ u) (hut : u ≤ t + 31768) :
    0 ≤ (tick u g).elapsedMillisSinceLastDecrement ∧
    (tick u g).elapsedMillisSinceLastDecrement < 1000 := by
  have hacc : tickAccumulator u g
      = g.elapsedMillisSinceLastDecrement + ((u : Int) - (t : Int)) := by
    simp only [tickAccumulator, hl, wrapInt]
    omega
  rw [tick_elapsed, hacc]
  split_ifs <;> omega

theorem ticks_elapsed_close (ts : List Nat) :
    ∀ (t : Nat) (g : Globals), 0 ≤ g.elapsedMillisSinceLastDecrement →
      g.elapsedMillisSinceLastDecrement < 1000 → g.lastTickCheck = wrapInt t →
      closeTimes t ts →
      0 ≤ (ticks g ts).elapsedMillisSinceLastDecrement ∧
      (ticks g ts).elapsedMillisSinceLastDecrement < 1000 := by
  induction ts with
  | nil => exact fun t g h0 h1 _ _ => ⟨h0, h1⟩
  | cons u us ih =>
    intro t g h0 h1 hl hc
    obtain ⟨htu, hut, hrest⟩ := hc
    obtain ⟨b0, b1⟩ := tick_elapsed_close g t u h0 h1 hl htu hut
    exact ih u (tick u g) b0 b1 (tick_lastTickCheck u g) hrest

/-- C14, as stated, fails: five minutes dialled after boot, the countdown
started at clock value 0 and ticked at clock value 40000 (not before 0): the
sketch stores 40000 as -25536, and the accumulator after the tick is -25536,
below 0. -/
theorem accumulator_negative_after_late_tick :
    (run (setup initialisedStore) [Event.btnUpLongPress]).state = States.CONFIGURING ∧
    (run (setup initialisedStore) [Event.btnUpLongPress]).remainingSeconds = 300 ∧
    nonDecreasingTimes 0 [40000] ∧
    (ticks (handleBtnSwitchGoLongPress 0 (run (setup initialisedStore) [Event.btnUpLongPress]))
        [40000]).elapsedMillisSinceLastDecrement = -25536 ∧
    ¬ (0 ≤ (ticks (handleBtnSwitchGoLongPress 0
          (run (setup initialisedStore) [Event.btnUpLongPress]))
        [40000]).elapsedMillisSinceLastDecrement) := by
  decide

/-- C14, amended: from `reset` (last-checked time 0) or from the start of
the countdown at clock value `t`, through ticks whose clock values never go
back and are each at most 31768 ms after the one before, the accumulator
after every tick is in `[0, 1000)`; it is 0 right after any tick that
decremented remainingSeconds and right after `reset`. -/
theorem accumulator_in_range (t : Nat) (ts : List Nat) (hc : closeTimes t ts) :
    (∀ c : Globals, c.state = States.CONFIGURING → 0 < c.remainingSeconds →
      0 ≤ (ticks (handleBtnSwitchGoLongPress t c) ts).elapsedMillisSinceLastDecrement ∧
      (ticks (handleBtnSwitchGoLongPress t c) ts).elapsedMillisSinceLastDecrement < 1000) ∧
    (∀ g : Globals, t = 0 →
      0 ≤ (ticks (reset g) ts).elapsedMillisSinceLastDecrement ∧
      (ticks (reset g) ts).elapsedMillisSinceLastDecrement < 1000) ∧
    (∀ (g : Globals) (millis : Nat),
      (tick millis g).elapsedMillisSinceLastDecrement < 1000 ∧
      (tickAccumulator millis g ≥ 1000 →
        (tick millis g).elapsedMillisSinceLastDecrement = 0) ∧
      ((tick millis g).remainingSeconds ≠ g.remainingSeconds →
        (tick millis g).elapsedMillisSinceLastDecrement = 0)) ∧
    (∀ g : Globals, (reset g).elapsedMillisSinceLastDecrement = 0) := by
  have hreset : ∀ g : Globals, (reset g).elapsedMillisSinceLastDecrement = 0 ∧
      (reset g).lastTickCheck = 0 := fun g =>
    ⟨(printMenu_frame _).2.2.2.1, (printMenu_frame _).2.2.2.2⟩
  refine ⟨fun c hs hr => ?_, fun g ht => ?_, fun g millis => ⟨?_, fun h => ?_, fun h => ?_⟩,
    fun g => (hreset g).1⟩
  · obtain ⟨-, -, a3, a4, -⟩ := arm_fields t c hs hr
    exact ticks_elapsed_close ts t _ (by rw [a3]) (by rw [a3]; decide) a4 hc
  · subst ht
    exact ticks_elapsed_close ts 0 _ (by rw [(hreset g).1]) (by rw [(hreset g).1]; decide)
      (by rw [(hreset g).2]; rfl) hc
  · rw [tick_elapsed]
    split_ifs <;> omega
  · rw [tick_elapsed, if_pos h]
  · rw [tick_elapsed]
    rw [tick_remainingSeconds] at h
    split_ifs with hge
    · rfl
    · rw [if_neg hge] at h
      exact absurd rfl h

/-- Witness of C14: the countdown started at clock value 65036 with 5:00 on
the dial and ticked at 65936 and 66136. -/
theorem accumulator_in_range_witness :
    0 ≤ (ticks (handleBtnSwitchGoLongPress 65036 (editing 300 MenuOptions.MINUTES))
        [65936, 66136]).elapsedMillisSinceLastDecrement ∧
    (ticks (handleBtnSwitchGoLongPress 65036 (editing 300 MenuOptions.MINUTES))
        [65936, 66136]).elapsedMillisSinceLastDecrement < 1000 :=
  (accumulator_in_range 65036 [65936, 66136] (by decide)).1
    (editing 300 MenuOptions.MINUTES) (by decide) (by decide)

/-! ## Initialisation of the store -/

theorem zeroFill_cells (n : Nat) :
    ∀ (start : Nat) (e : EEPROMClass),
      ((List.range' start n).foldl (fun e i => e.write i 0) e).cells
        = (fun a => if start ≤ a ∧ a < start + n then 0 else e.cells a) ∧
      ((List.range' start n).foldl (fun e i => e.write i 0) e).length = e.length := by
  induction n with
  | zero =>
    intro start e
    refine ⟨?_, rfl⟩
    funext a
    have hn : ¬ (start ≤ a ∧ a < start + 0) := by omega
    simp only [List.range', List.foldl_nil, if_neg hn]
  | succ n ih =>
    intro start e
    obtain ⟨h1, h2⟩ := ih (start + 1) (e.write start 0)
    simp only [List.range', List.foldl_cons]
    refine ⟨?_, h2⟩
    rw [h1]
    funext a
    simp only [EEPROMClass.write, Function.update_apply]
    split_ifs <;> first | rfl | omega

theorem setUpEEPROM_marked (e : EEPROMClass) (h : e.cells 0 = EEPROM_INIT_MARKER) :
    setUpEEPROM e = { e with reads := e.reads + 1 } := by
  simp only [setUpEEPROM, EEPROMClass.read, h, ne_eq, not_true_eq_false, if_false]

theorem setUpEEPROM_unmarked (e : EEPROMClass) (h : e.cells 0 ≠ EEPROM_INIT_MARKER) :
    (setUpEEPROM e).cells
      = (fun a => if 1 ≤ a ∧ a < 1 + (e.length - 1) then 0
          else if a = 0 then EEPROM_INIT_MARKER else e.cells a) ∧
    (setUpEEPROM e).length = e.length := by
  simp only [setUpEEPROM, EEPROMClass.read, h, ne_eq, not_false_eq_true, if_true]
  obtain ⟨h1, h2⟩ := zeroFill_cells (e.length - 1) 1
    (({ e with reads := e.reads + 1 } : EEPROMClass).write 0 EEPROM_INIT_MARKER)
  refine ⟨Eq.trans h1 ?_, h2⟩
  funext a
  simp only [EEPROMClass.write, Function.update_apply]

theorem setUpEEPROM_marker (e : EEPROMClass) :
    (setUpEEPROM e).cells 0 = EEPROM_INIT_MARKER := by
  by_cases h : e.cells 0 = EEPROM_INIT_MARKER
  · rw [setUpEEPROM_marked e h]
    exact h
  · rw [(setUpEEPROM_unmarked e h).1]
    simp

/-- C15: `setUpEEPROM` run twice leaves the same bytes (and capacity) as run
once, and the second run writes nothing.  With 42 at address 0 the bytes are
unchanged and nothing is written; otherwise afterwards address 0 holds 42
and every address from 1 to capacity - 1 holds 0, so that (the capacity
covering the preset addresses) both presets read as 0. -/
theorem setUpEEPROM_idempotent (e : EEPROMClass) :
    (setUpEEPROM (setUpEEPROM e)).cells = (setUpEEPROM e).cells ∧
    (setUpEEPROM (setUpEEPROM e)).length = (setUpEEPROM e).length ∧
    (setUpEEPROM (setUpEEPROM e)).writes = (setUpEEPROM e).writes ∧
    (e.cells 0 = 42 →
      (setUpEEPROM e).cells = e.cells ∧ (setUpEEPROM e).length = e.length ∧
      (setUpEEPROM e).writes = e.writes) ∧
    (e.cells 0 ≠ 42 →
      (setUpEEPROM e).cells 0 = 42 ∧
      (∀ a : Nat, 1 ≤ a → a < e.length → (setUpEEPROM e).cells a = 0) ∧
      (21 < e.length →
        ∀ memoryIndex : Fin 2,
          (readMemorySeconds memoryIndex (powerOn (setUpEEPROM e))).1 = 0)) := by
  have hm := setUpEEPROM_marker e
  refine ⟨?_, ?_, ?_, fun h => ?_, fun h => ⟨hm, ?_, ?_⟩⟩
  · rw [setUpEEPROM_marked _ hm]
  · rw [setUpEEPROM_marked _ hm]
  · rw [setUpEEPROM_marked _ hm]
  · rw [setUpEEPROM_marked e h]
    exact ⟨rfl, rfl, rfl⟩
  · intro a h1 h2
    rw [(setUpEEPROM_unmarked e h).1]
    have hin : 1 ≤ a ∧ a < 1 + (e.length - 1) := by omega
    simp only [hin, and_self, if_true]
  · intro hlen memoryIndex
    have hz : ∀ a : Nat, 1 ≤ a → a < e.length → (setUpEEPROM e).cells a = 0 := by
      intro a h1 h2
      rw [(setUpEEPROM_unmarked e h).1]
      have hin : 1 ≤ a ∧ a < 1 + (e.length - 1) := by omega
      simp only [hin, and_self, if_true]
    have haddr : MEMORY_ADDRESSES memoryIndex = 10 ∨ MEMORY_ADDRESSES memoryIndex = 20 := by
      unfold MEMORY_ADDRESSES
      split_ifs
      · exact Or.inl rfl
      · exact Or.inr rfl
    have hlo : (setUpEEPROM e).cells (MEMORY_ADDRESSES memoryIndex) = 0 :=
      hz _ (by omega) (by omega)
    have hhi : (setUpEEPROM e).cells (MEMORY_ADDRESSES memoryIndex + 1) = 0 :=
      hz _ (by omega) (by omega)
    have hneg : ¬ ((powerOn (setUpEEPROM e)).memoryValues memoryIndex ≥ 0) := by
      simp [powerOn]
    rw [readMemorySeconds, if_neg hneg]
    simp only [EEPROMClass.read, powerOn, hlo, hhi]
    decide

/-- Witness of C15: a store with 255 in every byte. -/
theorem setUpEEPROM_idempotent_witness :
    (setUpEEPROM blankStore).cells 0 = 42 ∧
    (setUpEEPROM blankStore).cells 1023 = 0 ∧
    (readMemorySeconds 1 (powerOn (setUpEEPROM blankStore))).1 = 0 ∧
    (setUpEEPROM initialisedStore).cells = initialisedStore.cells :=
  ⟨((setUpEEPROM_idempotent blankStore).2.2.2.2 (by decide)).1,
   ((setUpEEPROM_idempotent blankStore).2.2.2.2 (by decide)).2.1 1023 (by decide) (by decide),
   ((setUpEEPROM_idempotent blankStore).2.2.2.2 (by decide)).2.2 (by decide) 1,
   ((setUpEEPROM_idempotent initialisedStore).2.2.2.1 (by decide)).1⟩

/-! ## Recalling a preset -/

theorem start_rejected (millis : Nat) (g : Globals) (hs : g.state = States.CONFIGURING)
    (hr : ¬ (0 < g.remainingSeconds)) :
    handleBtnSwitchGoLongPress millis g = beep g := by
  simp only [handleBtnSwitchGoLongPress, hs, gt_iff_lt, if_neg hr]

/-- C16: a click of a preset button in phase CONFIGURING sets
remainingSeconds to the value `v` that `readMemorySeconds` returns for the
slot; the phase is then TICKING, with accumulator 0, exactly when `v > 0`,
and stays CONFIGURING when `v = 0`.  In phase TICKING or ALERTING the click
changes nothing. -/
theorem recall_preset_click (memoryIndex : Fin 2) (millis : Nat) (g : Globals) :
    handleBtnMemory1Click millis g = handleBtnMemoryClick 0 millis g ∧
    handleBtnMemory2Click millis g = handleBtnMemoryClick 1 millis g ∧
    (g.state = States.CONFIGURING →
      (handleBtnMemoryClick memoryIndex millis g).remainingSeconds
        = (readMemorySeconds memoryIndex g).1 ∧
      ((handleBtnMemoryClick memoryIndex millis g).state = States.TICKING ↔
        0 < (readMemorySeconds memoryIndex g).1) ∧
      (0 < (readMemorySeconds memoryIndex g).1 →
        (handleBtnMemoryClick memoryIndex millis g).elapsedMillisSinceLastDecrement = 0) ∧
      ((readMemorySeconds memoryIndex g).1 = 0 →
        (handleBtnMemoryClick memoryIndex millis g).state = States.CONFIGURING)) ∧
    (g.state = States.TICKING ∨ g.state = States.ALERTING →
      handleBtnMemoryClick memoryIndex millis g = g) := by
  refine ⟨rfl, rfl, fun hs => ?_, fun hs => ?_⟩
  · obtain ⟨f1, -⟩ := readMemorySeconds_frame memoryIndex g
    obtain ⟨p1, p2, -⟩ := printMenu_frame
      { (readMemorySeconds memoryIndex g).2 with
          remainingSeconds := (readMemorySeconds memoryIndex g).1 }
    have p1' := p1.trans (f1.trans hs)
    have p2' : (printMenu { (readMemorySeconds memoryIndex g).2 with
        remainingSeconds := (readMemorySeconds memoryIndex g).1 }).remainingSeconds
          = (readMemorySeconds memoryIndex g).1 := p2
    rw [handleBtnMemoryClick_configuring memoryIndex millis g hs]
    by_cases hv : 0 < (readMemorySeconds memoryIndex g).1
    · obtain ⟨a1, a2, a3, -⟩ := arm_fields millis _ p1' (by rw [p2']; exact hv)
      refine ⟨a2.trans p2', ⟨fun _ => hv, fun _ => a1⟩, fun _ => a3, fun h0 => ?_⟩
      omega
    · rw [start_rejected millis _ p1' (by rw [p2']; exact hv)]
      refine ⟨p2', ⟨fun ht => ?_, fun h => absurd h hv⟩, fun h => absurd h hv, fun _ => p1'⟩
      have hc : (beep (printMenu { (readMemorySeconds memoryIndex g).2 with
          remainingSeconds := (readMemorySeconds memoryIndex g).1 })).state
            = States.CONFIGURING := p1'
      rw [hc] at ht
      exact absurd ht (by decide)
  · have hne : g.state ≠ States.CONFIGURING := by
      rcases hs with hs | hs <;> rw [hs] <;> decide
    rw [handleBtnMemoryClick, if_pos hne]

/-- Witness of C16: the second preset holds 125 seconds; its button clicked
after boot starts the countdown at 125, and clicked again while the
countdown runs changes nothing. -/
theorem recall_preset_click_witness :
    (handleBtnMemoryClick 1 500 (setup presetStore)).remainingSeconds
      = (readMemorySeconds 1 (setup presetStore)).1 ∧
    (handleBtnMemoryClick 1 500 (setup presetStore)).state = States.TICKING ∧
    handleBtnMemoryClick 1 900 runningSample = runningSample :=
  ⟨((recall_preset_click 1 500 (setup presetStore)).2.2.1 (by decide)).1,
   ((recall_preset_click 1 500 (setup presetStore)).2.2.1 (by decide)).2.1.2 (by decide),
   (recall_preset_click 1 900 runningSample).2.2.2 (Or.inl (by decide))⟩

/-! ## Independence of the two fields -/

/-- C17: with the seconds field selected and a remaining time `r` in
`[0, 1800]`, `adjustTime` in either direction with either step leaves the
whole-minute count `r / 60` unchanged. -/
theorem adjustTime_seconds_keeps_minutes (g : Globals) (isIncrement isBigStep : Bool)
    (hm : g.currentMenuOption = MenuOptions.SECONDS)
    (h0 : 0 ≤ g.remainingSeconds) (h1 : g.remainingSeconds ≤ 1800) :
    (adjustTime isIncrement isBigStep g).remainingSeconds / 60 = g.remainingSeconds / 60 := by
  simp only [adjustTime, hm, tdiv_sixty _ h0, tmod_sixty _ h0, constrain, MIN_SECONDS,
    MAX_SECONDS, SECONDS_BIG_STEP, SECONDS_SMALL_STEP]
  cases isIncrement <;> cases isBigStep <;> simp <;> split_ifs <;> omega

/-- Witness of C17: 30:00 with the seconds field selected, one second down. -/
theorem adjustTime_seconds_keeps_minutes_witness :
    (adjustTime false false (editing 1800 MenuOptions.SECONDS)).remainingSeconds / 60
      = (editing 1800 MenuOptions.SECONDS).remainingSeconds / 60 :=
  adjustTime_seconds_keeps_minutes (editing 1800 MenuOptions.SECONDS) false false rfl
    (by decide) (by decide)

/-- C18, as stated, fails: the dial reaches 29:50 with the minutes field
selected by ten button events after boot, and one minute up then gives
30:00: the seconds part 50 becomes 0. -/
theorem adjustTime_minutes_up_loses_seconds :
    (run (setup initialisedStore)
        [Event.btnUpLongPress, Event.btnUpLongPress, Event.btnUpLongPress,
         Event.btnUpLongPress, Event.btnUpLongPress, Event.btnUpLongPress,
         Event.btnDownClick, Event.btnSwitchGoClick, Event.btnDownLongPress,
         Event.btnSwitchGoClick]).remainingSeconds
      = 1790 ∧
    (run (setup initialisedStore)
        [Event.btnUpLongPress, Event.btnUpLongPress, Event.btnUpLongPress,
         Event.btnUpLongPress, Event.btnUpLongPress, Event.btnUpLongPress,
         Event.btnDownClick, Event.btnSwitchGoClick, Event.btnDownLongPress,
         Event.btnSwitchGoClick]).currentMenuOption
      = MenuOptions.MINUTES ∧
    (adjustTime true false (run (setup initialisedStore)
        [Event.btnUpLongPress, Event.btnUpLongPress, Event.btnUpLongPress,
         Event.btnUpLongPress, Event.btnUpLongPress, Event.btnUpLongPress,
         Event.btnDownClick, Event.btnSwitchGoClick, Event.btnDownLongPress,
         Event.btnSwitchGoClick])).remainingSeconds
      = 1800 ∧
    (1800 : Int) % 60 ≠ 1790 % 60 := by
  decide

/-- C18, amended: with the minutes field selected and a remaining time `r`
in `[0, 1800]`, the decrement by 1 or 5 minutes leaves the seconds part
`r % 60` unchanged, and so does the increment whenever `r + 60 * step ≤
1800`; an increment with `r + 60 * step > 1800` gives 1800. -/
theorem adjustTime_minutes_keeps_seconds (g : Globals) (isBigStep : Bool)
    (hm : g.currentMenuOption = MenuOptions.MINUTES)
    (h0 : 0 ≤ g.remainingSeconds) (h1 : g.remainingSeconds ≤ 1800) :
    (adjustTime false isBigStep g).remainingSeconds % 60 = g.remainingSeconds % 60 ∧
    (g.remainingSeconds + 60 * minutesStep isBigStep ≤ 1800 →
      (adjustTime true isBigStep g).remainingSeconds
        = g.remainingSeconds + 60 * minutesStep isBigStep ∧
      (adjustTime true isBigStep g).remainingSeconds % 60 = g.remainingSeconds % 60) ∧
    (g.remainingSeconds + 60 * minutesStep isBigStep > 1800 →
      (adjustTime true isBigStep g).remainingSeconds = 1800) := by
  simp only [adjustTime, hm, tdiv_sixty _ h0, constrain, MIN_SECONDS, MAX_SECONDS,
    minutesStep, MINUTES_BIG_STEP, MINUTES_SMALL_STEP]
  cases isBigStep <;> simp <;> refine ⟨?_, ?_, ?_⟩ <;> try intro hle
  all_goals split_ifs <;> omega

/-- Witness of C18, amended: 28:50 with the minutes field selected, one
minute up and one minute down. -/
theorem adjustTime_minutes_keeps_seconds_witness :
    (adjustTime false false (editing 1730 MenuOptions.MINUTES)).remainingSeconds % 60
      = (editing 1730 MenuOptions.MINUTES).remainingSeconds % 60 ∧
    (adjustTime true false (editing 1730 MenuOptions.MINUTES)).remainingSeconds % 60
      = (editing 1730 MenuOptions.MINUTES).remainingSeconds % 60 :=
  ⟨(adjustTime_minutes_keeps_seconds (editing 1730 MenuOptions.MINUTES) false rfl
      (by decide) (by decide)).1,
   ((adjustTime_minutes_keeps_seconds (editing 1730 MenuOptions.MINUTES) false rfl
      (by decide) (by decide)).2.1 (by decide)).2⟩

/-! ## Ticks after the stored clock value went down -/

/-- C19, as stated, fails: the countdown is started at clock value 100;
the tick at clock value 65586, which the sketch stores as 50 (below the
last-checked time 100), leaves the accumulator at -50, outside `[0, 1000)`;
so does a tick at clock value 50. -/
theorem tick_accumulator_negative_after_wrap :
    (startedSample 100).state = States.TICKING ∧
    (startedSample 100).elapsedMillisSinceLastDecrement = 0 ∧
    (startedSample 100).lastTickCheck = 100 ∧
    wrapInt ((65586 : Nat) : Int) = 50 ∧
    wrapInt ((65586 : Nat) : Int) < (startedSample 100).lastTickCheck ∧
    (tick 65586 (startedSample 100)).elapsedMillisSinceLastDecrement = -50 ∧
    (tick 50 (startedSample 100)).elapsedMillisSinceLastDecrement = -50 ∧
    ¬ (0 ≤ (tick 65586 (startedSample 100)).elapsedMillisSinceLastDecrement) := by
  decide

/-- C19, amended: with the accumulator `a` in `[0, 1000)` and a tick whose
time `n`, as the sketch stores it, is below the last-checked time `l`, the
tick performs at most one decrement of remainingSeconds (so a value within
its phase's range changes by at most 1) and leaves the accumulator below
1000; the accumulator stays in `[0, 1000)` when `d`, the difference `n - l`
reduced to the 16 bit `int`, satisfies `0 ≤ d` and `a + d ≤ 32767`. -/
theorem tick_after_wrap (g : Globals) (millis : Nat)
    (ha0 : 0 ≤ g.elapsedMillisSinceLastDecrement)
    (ha1 : g.elapsedMillisSinceLastDecrement < 1000)
    (_hlt : wrapInt millis < g.lastTickCheck) :
    ((tick millis g).remainingSeconds = g.remainingSeconds ∨
      (tick millis g).remainingSeconds =
        (if g.state = States.ALERTING then constrain (g.remainingSeconds - 1) (-MAX_SECONDS) 0
         else g.remainingSeconds - 1)) ∧
    (timeInRange g →
      g.remainingSeconds - 1 ≤ (tick millis g).remainingSeconds ∧
      (tick millis g).remainingSeconds ≤ g.remainingSeconds) ∧
    (tick millis g).elapsedMillisSinceLastDecrement < 1000 ∧
    (0 ≤ wrapInt (wrapInt millis - g.lastTickCheck) →
      g.elapsedMillisSinceLastDecrement + wrapInt (wrapInt millis - g.lastTickCheck) ≤ 32767 →
      0 ≤ (tick millis g).elapsedMillisSinceLastDecrement) := by
  refine ⟨?_, fun ht => ?_, ?_, fun hd hfit => ?_⟩
  · rw [tick_remainingSeconds]
    by_cases h : tickAccumulator millis g ≥ 1000
    · rw [if_pos h]
      exact Or.inr rfl
    · rw [if_neg h]
      exact Or.inl rfl
  · rw [tick_remainingSeconds]
    simp only [timeInRange] at ht
    simp only [constrain, MAX_SECONDS]
    cases hs : g.state <;> simp only [hs] at ht <;> simp <;> split_ifs <;> omega
  · rw [tick_elapsed]
    split_ifs <;> omega
  · have hacc : tickAccumulator millis g
        = g.elapsedMillisSinceLastDecrement + wrapInt (wrapInt millis - g.lastTickCheck) := by
      generalize hdv : wrapInt (wrapInt millis - g.lastTickCheck) = d at hd hfit
      simp only [tickAccumulator, hdv]
      simp only [wrapInt]
      omega
    rw [tick_elapsed, hacc]
    split_ifs <;> omega

/-- Witness of C19, amended: the countdown started at clock value 32760 and
ticked at clock value 32770, which the sketch stores as -32766. -/
theorem tick_after_wrap_witness :
    (tick 32770 (startedSample 32760)).elapsedMillisSinceLastDecrement < 1000 ∧
    0 ≤ (tick 32770 (startedSample 32760)).elapsedMillisSinceLastDecrement :=
  ⟨(tick_after_wrap (startedSample 32760) 32770 (by decide) (by decide) (by decide)).2.2.1,
   (tick_after_wrap (startedSample 32760) 32770 (by decide) (by decide) (by decide)).2.2.2
      (by decide) (by decide)⟩

/-! ## Coherence of the preset cache with the store -/

theorem coldValue_eq_read (e : EEPROMClass) (i : Fin 2) :
    (readMemorySeconds i (powerOn e)).1 = coldValue e i := by
  have hneg : ¬ ((powerOn e).memoryValues i ≥ 0) := by simp [powerOn]
  rw [readMemorySeconds, if_neg hneg]
  simp only [EEPROMClass.read, powerOn, coldValue]

theorem coldValue_congr (e e' : EEPROMClass) (h : e'.cells = e.cells) (i : Fin 2) :
    coldValue e' i = coldValue e i := by
  simp only [coldValue, h]

theorem storeInv_congr (g g' : Globals) (h1 : g'.EEPROM.cells = g.EEPROM.cells)
    (h2 : g'.memoryValues = g.memoryValues) (h : StoreInv g) : StoreInv g' := by
  refine ⟨fun i => ?_, by rw [h1]; exact h.2⟩
  rw [h2, coldValue_congr _ _ h1]
  exact h.1 i

theorem MEMORY_ADDRESSES_cases (i : Fin 2) :
    (i = 0 ∧ MEMORY_ADDRESSES i = 10) ∨ (i = 1 ∧ MEMORY_ADDRESSES i = 20) := by
  fin_cases i
  · exact Or.inl ⟨rfl, rfl⟩
  · exact Or.inr ⟨rfl, rfl⟩

theorem readMemorySeconds_store (i : Fin 2) (g : Globals) (h : StoreInv g) :
    StoreInv (readMemorySeconds i g).2 ∧
    (readMemorySeconds i g).2.EEPROM.cells = g.EEPROM.cells ∧
    (g.memoryValues i = -1 → (readMemorySeconds i g).2.memoryValues i = coldValue g.EEPROM i) ∧
    (0 ≤ g.memoryValues i → (readMemorySeconds i g).2.memoryValues = g.memoryValues) := by
  by_cases hc : g.memoryValues i ≥ 0
  · rw [readMemorySeconds, if_pos hc]
    exact ⟨h, rfl, fun h1 => by omega, fun _ => rfl⟩
  · rw [readMemorySeconds, if_neg hc]
    refine ⟨⟨fun j => ?_, h.2⟩, rfl, fun _ => ?_, fun h0 => absurd h0 hc⟩
    · by_cases hj : j = i
      · subst hj
        right
        simp only [EEPROMClass.read, Function.update_same, coldValue]
      · simp only [EEPROMClass.read, Function.update_noteq hj]
        exact h.1 j
    · simp only [EEPROMClass.read, Function.update_same, coldValue]

theorem printMenu_store (g : Globals) (h : StoreInv g) :
    StoreInv (printMenu g) ∧ (printMenu g).EEPROM.cells = g.EEPROM.cells := by
  obtain ⟨a1, a2, -⟩ := readMemorySeconds_store 0 g h
  obtain ⟨b1, b2, -⟩ := readMemorySeconds_store 1 _ a1
  exact ⟨b1, b2.trans a2⟩

theorem word_of_bytes (seconds : Int) (h0 : 0 ≤ seconds) (h1 : seconds ≤ 1800) :
    constrain (wrapInt (word (highByte seconds) (lowByte seconds))) MIN_SECONDS MAX_SECONDS
      = seconds := by
  simp only [word, highByte, lowByte, constrain, wrapInt, MIN_SECONDS, MAX_SECONDS]
  push_cast
  split_ifs <;> omega

theorem writeMemorySeconds_store (i : Fin 2) (seconds : Int) (g : Globals)
    (h0 : 0 ≤ seconds) (h1 : seconds ≤ 1800) (h : StoreInv g) :
    StoreInv (writeMemorySeconds i seconds g) ∧
    (writeMemorySeconds i seconds g).memoryValues i = seconds := by
  by_cases hc : g.memoryValues i = seconds
  · rw [writeMemorySeconds, if_pos hc]
    exact ⟨h, hc⟩
  · rw [writeMemorySeconds, if_neg hc]
    simp only [beep, EEPROMClass.write]
    refine ⟨⟨fun j => ?_, ?_⟩, by simp only [Function.update_same]⟩
    · by_cases hj : j = i
      · subst hj
        right
        have hne : MEMORY_ADDRESSES j ≠ MEMORY_ADDRESSES j + 1 := by omega
        simp only [Function.update_same, coldValue, Function.update_noteq hne]
        exact (word_of_bytes seconds h0 h1).symm
      · have hold := h.1 j
        have hd : MEMORY_ADDRESSES j ≠ MEMORY_ADDRESSES i ∧
            MEMORY_ADDRESSES j ≠ MEMORY_ADDRESSES i + 1 ∧
            MEMORY_ADDRESSES j + 1 ≠ MEMORY_ADDRESSES i ∧
            MEMORY_ADDRESSES j + 1 ≠ MEMORY_ADDRESSES i + 1 := by
          rcases MEMORY_ADDRESSES_cases i with ⟨hi, ha⟩ | ⟨hi, ha⟩ <;>
            rcases MEMORY_ADDRESSES_cases j with ⟨hj', hb⟩ | ⟨hj', hb⟩ <;>
            first
              | exact absurd (hj'.trans hi.symm) hj
              | (rw [ha, hb]; decide)
        simp only [Function.update_noteq hj, coldValue, Function.update_noteq hd.1,
          Function.update_noteq hd.2.1, Function.update_noteq hd.2.2.1,
          Function.update_noteq hd.2.2.2]
        exact hold
    · have hz : (0 : Nat) ≠ MEMORY_ADDRESSES i ∧ (0 : Nat) ≠ MEMORY_ADDRESSES i + 1 := by
        rcases MEMORY_ADDRESSES_cases i with ⟨-, ha⟩ | ⟨-, ha⟩ <;> rw [ha] <;> decide
      simp only [Function.update_noteq hz.1, Function.update_noteq hz.2]
      exact h.2

theorem coldValue_mem (e : EEPROMClass) (i : Fin 2) :
    0 ≤ coldValue e i ∧ coldValue e i ≤ 1800 :=
  constrain_mem _ MIN_SECONDS MAX_SECONDS (by decide)

theorem readMemorySeconds_memoryValues (j i : Fin 2) (g : Globals) :
    (readMemorySeconds j g).2.memoryValues i =
      if i = j ∧ ¬ (0 ≤ g.memoryValues j) then coldValue g.EEPROM j else g.memoryValues i := by
  by_cases hc : g.memoryValues j ≥ 0
  · have hn : ¬ (i = j ∧ ¬ (0 ≤ g.memoryValues j)) := fun h => h.2 hc
    rw [readMemorySeconds, if_pos hc, if_neg hn]
  · rw [readMemorySeconds, if_neg hc]
    by_cases hij : i = j
    · subst hij
      rw [if_pos ⟨rfl, hc⟩]
      simp only [EEPROMClass.read, Function.update_same, coldValue]
    · have hn : ¬ (i = j ∧ ¬ (0 ≤ g.memoryValues j)) := fun h => hij h.1
      rw [if_neg hn]
      simp only [EEPROMClass.read, Function.update_noteq hij]

theorem readMemorySeconds_cells (j : Fin 2) (g : Globals) :
    (readMemorySeconds j g).2.EEPROM.cells = g.EEPROM.cells := by
  simp only [readMemorySeconds, EEPROMClass.read]
  split_ifs <;> rfl

theorem printMenu_memoryValues (i : Fin 2) (g : Globals) :
    (printMenu g).memoryValues i =
      if 0 ≤ g.memoryValues i then g.memoryValues i else coldValue g.EEPROM i := by
  have hcells := readMemorySeconds_cells 0 g
  simp only [printMenu]
  rw [readMemorySeconds_memoryValues 1 i, readMemorySeconds_memoryValues 0 i,
    readMemorySeconds_memoryValues 0 1, coldValue_congr _ _ hcells]
  by_cases h0 : 0 ≤ g.memoryValues 0 <;> by_cases h1 : 0 ≤ g.memoryValues 1 <;>
    fin_cases i <;> simp [h0, h1]

theorem reset_store (g : Globals) (h : StoreInv g) : StoreInv (reset g) := by
  unfold reset
  refine (printMenu_store _ ?_).1
  exact storeInv_congr g _ rfl rfl h

theorem handleBtnSwitchGoClick_store (g : Globals) (h : StoreInv g) :
    StoreInv (handleBtnSwitchGoClick g) := by
  unfold handleBtnSwitchGoClick
  split
  · apply fun x hx => (printMenu_store x hx).1
    split <;> exact storeInv_congr g _ rfl rfl h
  · exact reset_store g h
  · exact reset_store g h

theorem handleBtnSwitchGoLongPress_store (millis : Nat) (g : Globals) (h : StoreInv g) :
    StoreInv (handleBtnSwitchGoLongPress millis g) := by
  unfold handleBtnSwitchGoLongPress
  split
  · split_ifs
    · simp only [printTick]
      split_ifs <;> exact storeInv_congr g _ rfl rfl h
    · exact storeInv_congr g _ rfl rfl h
  · exact reset_store g h
  · exact reset_store g h

theorem adjust_then_print_store (isIncrement isBigStep : Bool) (g : Globals)
    (h : StoreInv g) : StoreInv (printMenu (adjustTime isIncrement isBigStep g)) := by
  refine (printMenu_store _ ?_).1
  exact storeInv_congr g _ rfl rfl h

theorem handleBtnMemoryClick_store (i : Fin 2) (millis : Nat) (g : Globals)
    (h : StoreInv g) : StoreInv (handleBtnMemoryClick i millis g) := by
  by_cases hs : g.state = States.CONFIGURING
  · rw [handleBtnMemoryClick_configuring i millis g hs]
    apply handleBtnSwitchGoLongPress_store
    apply fun x hx => (printMenu_store x hx).1
    exact storeInv_congr (readMemorySeconds i g).2 _ rfl rfl (readMemorySeconds_store i g h).1
  · rw [handleBtnMemoryClick, if_pos hs]
    exact h

theorem handleBtnMemoryLongPress_store (i : Fin 2) (g : Globals) (hi : Inv g)
    (h : StoreInv g) : StoreInv (handleBtnMemoryLongPress i g) := by
  unfold handleBtnMemoryLongPress
  split_ifs with hs
  · exact h
  · have hs' : g.state = States.CONFIGURING ∧ 0 < g.remainingSeconds := by
      simpa [not_or] using hs
    have ht := hi.2
    simp only [timeInRange, hs'.1] at ht
    exact (printMenu_store _
      (writeMemorySeconds_store i g.remainingSeconds g (by omega) ht.2 h).1).1

theorem tick_EEPROM (millis : Nat) (g : Globals) : (tick millis g).EEPROM = g.EEPROM := by
  simp only [tick, printTick]
  split_ifs <;> rfl

theorem loop_store (millis : Nat) (g : Globals) (h : StoreInv g) :
    StoreInv (loop millis g) := by
  have ht : StoreInv (tick millis g) :=
    storeInv_congr g _ (by rw [tick_EEPROM]) (tick_memoryValues millis g) h
  unfold loop
  split
  · dsimp only
    split_ifs
    · unfold StoreInv at ht ⊢
      dsimp only
      exact ht
    · exact ht
  · exact ht
  · exact h

theorem handle_store (ev : Event) (g : Globals) (hi : Inv g) (h : StoreInv g) :
    StoreInv (handle ev g) := by
  cases ev with
  | btnSwitchGoClick => exact handleBtnSwitchGoClick_store g h
  | btnSwitchGoLongPress millis => exact handleBtnSwitchGoLongPress_store millis g h
  | btnUpClick =>
    simp only [handle, handleBtnUpClick]
    split_ifs
    · exact h
    · exact adjust_then_print_store _ _ g h
  | btnDownClick =>
    simp only [handle, handleBtnDownClick]
    split_ifs
    · exact h
    · exact adjust_then_print_store _ _ g h
  | btnUpLongPress =>
    simp only [handle, handleBtnUpLongPress]
    split_ifs
    · exact h
    · exact adjust_then_print_store _ _ g h
  | btnDownLongPress =>
    simp only [handle, handleBtnDownLongPress]
    split_ifs
    · exact h
    · exact adjust_then_print_store _ _ g h
  | btnMemory1Click millis => exact handleBtnMemoryClick_store 0 millis g h
  | btnMemory2Click millis => exact handleBtnMemoryClick_store 1 millis g h
  | btnMemory1LongPress => exact handleBtnMemoryLongPress_store 0 g hi h
  | btnMemory2LongPress => exact handleBtnMemoryLongPress_store 1 g hi h
  | poll millis => exact loop_store millis g h

theorem setup_store (e : EEPROMClass) : StoreInv (setup e) := by
  apply reset_store
  exact ⟨fun i => Or.inl rfl, setUpEEPROM_marker e⟩

theorem run_store (evs : List Event) :
    ∀ g : Globals, Inv g → StoreInv g → Inv (run g evs) ∧ StoreInv (run g evs) := by
  induction evs with
  | nil => exact fun g hi h => ⟨hi, h⟩
  | cons ev evs ih =>
    exact fun g hi h => ih (handle ev g) (handle_inv ev g hi) (handle_store ev g hi h)

/-- After a power cycle over a marked store, `setup` fills each cache entry
with the value a cold read returns. -/
theorem setup_memoryValues (e : EEPROMClass) (hm : e.cells 0 = EEPROM_INIT_MARKER)
    (i : Fin 2) : (setup e).memoryValues i = coldValue e i := by
  have hneg : ¬ ((0 : Int) ≤ -1) := by decide
  simp only [setup, reset]
  rw [printMenu_memoryValues]
  simp only [powerOn, if_neg hneg, setUpEEPROM_marked e hm, coldValue]

theorem handleBtnMemoryLongPress_saved (i : Fin 2) (g : Globals) (hi : Inv g)
    (h : StoreInv g) (hs : g.state = States.CONFIGURING) (hr : 0 < g.remainingSeconds) :
    StoreInv (handleBtnMemoryLongPress i g) ∧
    (handleBtnMemoryLongPress i g).memoryValues i = g.remainingSeconds := by
  have ht := hi.2
  simp only [timeInRange, hs] at ht
  have hn : ¬ (g.state ≠ States.CONFIGURING ∨ g.remainingSeconds ≤ 0) := by
    rw [hs]
    simp only [ne_eq, not_true_eq_false, false_or, not_le]
    exact hr
  obtain ⟨w1, w2⟩ := writeMemorySeconds_store i g.remainingSeconds g ht.1 ht.2 h
  rw [handleBtnMemoryLongPress, if_neg hn]
  refine ⟨(printMenu_store _ w1).1, ?_⟩
  rw [printMenu_memoryValues, w2, if_pos ht.1]

/-- C20, as stated, fails: over an initialised store whose first preset
holds the bytes 0 and 200, the cache of the first preset after boot is 0,
which is what a cold read returns, while `clamp(0 + 256 * 200, 0, 1800)` is
1800: the sketch converts the 16 bit word 51200 to the `int` -14336 before
it clamps. -/
theorem cache_differs_from_spec_clamp :
    (run (setup highByteStore) []).memoryValues 0 = 0 ∧
    (readMemorySeconds 0 (powerOn (run (setup highByteStore) []).EEPROM)).1 = 0 ∧
    (run (setup highByteStore) []).EEPROM.cells 10 = 0 ∧
    (run (setup highByteStore) []).EEPROM.cells 11 = 200 ∧
    wrapInt (word 200 0) = -14336 ∧
    specColdValue (run (setup highByteStore) []).EEPROM 0 = 1800 ∧
    ¬ ((run (setup highByteStore) []).memoryValues 0 = -1 ∨
        (run (setup highByteStore) []).memoryValues 0
          = specColdValue (run (setup highByteStore) []).EEPROM 0) := by
  decide

/-- C20, amended: in every state reached from boot over any store contents
by any sequence of button events and polls, each slot's cache is -1 or a
value in `[0, 1800]` equal to the value a cold read returns, which is
`clamp(v, 0, 1800)` for `v = store[addr] + 256 * store[addr + 1]` when
`v < 32768` and 0 when `v ≥ 32768`.  Hence a save skipped because the cache
already equals remainingSeconds leaves a store whose cold read returns that
value, and a value saved with remainingSeconds in `[1, 1800]` is read back
unchanged from the store alone and after a power cycle. -/
theorem cache_coherent (e : EEPROMClass) (evs : List Event) (g : Globals)
    (hg : g = run (setup e) evs) (memoryIndex : Fin 2) :
    (g.memoryValues memoryIndex = -1 ∨
      (0 ≤ g.memoryValues memoryIndex ∧ g.memoryValues memoryIndex ≤ 1800 ∧
        g.memoryValues memoryIndex = (readMemorySeconds memoryIndex (powerOn g.EEPROM)).1)) ∧
    (((g.EEPROM.cells (MEMORY_ADDRESSES memoryIndex)).val : Int)
        + 256 * ((g.EEPROM.cells (MEMORY_ADDRESSES memoryIndex + 1)).val : Int) < 32768 →
      (readMemorySeconds memoryIndex (powerOn g.EEPROM)).1
        = specColdValue g.EEPROM memoryIndex) ∧
    (((g.EEPROM.cells (MEMORY_ADDRESSES memoryIndex)).val : Int)
        + 256 * ((g.EEPROM.cells (MEMORY_ADDRESSES memoryIndex + 1)).val : Int) ≥ 32768 →
      (readMemorySeconds memoryIndex (powerOn g.EEPROM)).1 = 0) ∧
    (g.state = States.CONFIGURING → 0 < g.remainingSeconds →
      (g.memoryValues memoryIndex = g.remainingSeconds →
        (writeMemorySeconds memoryIndex g.remainingSeconds g).EEPROM = g.EEPROM ∧
        (readMemorySeconds memoryIndex (powerOn g.EEPROM)).1 = g.remainingSeconds) ∧
      (readMemorySeconds memoryIndex
          (powerOn (handleBtnMemoryLongPress memoryIndex g).EEPROM)).1 = g.remainingSeconds ∧
      (setup (handleBtnMemoryLongPress memoryIndex g).EEPROM).memoryValues memoryIndex
        = g.remainingSeconds) := by
  obtain ⟨hi, hst⟩ := run_store evs (setup e) (setup_inv e) (setup_store e)
  rw [← hg] at hi hst
  have hlo := (g.EEPROM.cells (MEMORY_ADDRESSES memoryIndex)).isLt
  have hhi := (g.EEPROM.cells (MEMORY_ADDRESSES memoryIndex + 1)).isLt
  refine ⟨?_, fun hv => ?_, fun hv => ?_, fun hs hr => ⟨fun hc => ⟨?_, ?_⟩, ?_, ?_⟩⟩
  · rcases hst.1 memoryIndex with hc | hc
    · exact Or.inl hc
    · right
      rw [coldValue_eq_read, ← hc]
      have hb := coldValue_mem g.EEPROM memoryIndex
      rw [← hc] at hb
      exact ⟨hb.1, hb.2, rfl⟩
  · rw [coldValue_eq_read]
    simp only [coldValue, specColdValue, constrain, wrapInt, word, MIN_SECONDS, MAX_SECONDS]
    push_cast
    split_ifs <;> omega
  · rw [coldValue_eq_read]
    simp only [coldValue, constrain, wrapInt, word, MIN_SECONDS, MAX_SECONDS]
    push_cast
    split_ifs <;> omega
  · rw [writeMemorySeconds, if_pos hc]
    rfl
  · rw [coldValue_eq_read]
    rcases hst.1 memoryIndex with h1 | h1
    · omega
    · rw [← h1]
      exact hc
  · obtain ⟨s1, s2⟩ := handleBtnMemoryLongPress_saved memoryIndex g hi hst hs hr
    rw [coldValue_eq_read]
    rcases s1.1 memoryIndex with h1 | h1
    · omega
    · rw [← h1]
      exact s2
  · obtain ⟨s1, s2⟩ := handleBtnMemoryLongPress_saved memoryIndex g hi hst hs hr
    rw [setup_memoryValues _ s1.2]
    rcases s1.1 memoryIndex with h1 | h1
    · omega
    · rw [← h1]
      exact s2

/-- Witness of C20, amended: five minutes dialled after boot and saved to
the first preset are read back as 300 after a power cycle. -/
theorem cache_coherent_witness :
    (setup (handleBtnMemoryLongPress 0
        (run (setup initialisedStore) [Event.btnUpLongPress])).EEPROM).memoryValues 0
      = (run (setup initialisedStore) [Event.btnUpLongPress]).remainingSeconds :=
  ((cache_coherent initialisedStore [Event.btnUpLongPress]
      (run (setup initialisedStore) [Event.btnUpLongPress]) rfl 0).2.2.2
    (by decide) (by decide)).2.2

end Cronometro
